import Mathlib

/-!
Formal model of `odrive_hardware_interface.cpp` (ODriveHardwareInterface), a
ros2_control SystemInterface adapter for ODrive motor controllers.

The C++ class owns per-joint buffers (`hw_positions_`, `hw_velocities_`,
`hw_efforts_`, the three command buffers, `axis_`, `KV_`, `control_level_`)
and talks to the device through `ODriveUSB` (`odrive->read` / `odrive->write`),
which we model as a `Transport`: a pure response function for reads and a
result code function for writes.  `double` values are modelled as exact
rationals; register addresses and result codes as integers.  The register base
addresses and `per_axis_offset` come from a header that only enters here
through address arithmetic, so they are fields of a `RegMap` parameter.

Each lifecycle/cycle member function is translated into a state-passing
function that additionally returns the trace of transport operations it
issued, in order.
-/

/-- `hardware_interface::return_type`. -/
inductive ReturnType
  | OK
  | ERROR
deriving DecidableEq, Repr

/-- `ODriveHardwareInterface::integration_level_t`. -/
inductive integration_level_t
  | UNDEFINED
  | EFFORT
  | VELOCITY
  | POSITION
deriving DecidableEq, Repr

/-- `hardware_interface::status` values used by the source. -/
inductive HwStatus
  | UNKNOWN
  | CONFIGURED
  | STARTED
  | STOPPED
deriving DecidableEq, Repr

/-- `#define AXIS_STATE_IDLE 1` -/
def AXIS_STATE_IDLE : ℤ := 1

/-- `#define AXIS_STATE_CLOSED_LOOP_CONTROL 8` -/
def AXIS_STATE_CLOSED_LOOP_CONTROL : ℤ := 8

/-- `hardware_interface::HW_IF_POSITION`. -/
def HW_IF_POSITION : String := "position"

/-- `hardware_interface::HW_IF_VELOCITY`. -/
def HW_IF_VELOCITY : String := "velocity"

/-- `hardware_interface::HW_IF_EFFORT`. -/
def HW_IF_EFFORT : String := "effort"

/-- The exact rational value of the IEEE-754 double constant `M_PI`
(`884279719003555 * 2 ^ (-48)`), the value the source's `2 * M_PI`
conversions actually multiply and divide by. -/
def M_PI : ℚ := 884279719003555 / 281474976710656

/-- The register bases and per-axis stride used by the address arithmetic
`BASE + per_axis_offset * axis_[i]` in the source.  Their concrete values
live in the ODriveUSB header; the model is parametric in them. -/
structure RegMap where
  AXIS__REQUESTED_STATE : ℤ
  AXIS__MOTOR__CURRENT_CONTROL__IQ_MEASURED : ℤ
  AXIS__ENCODER__VEL_ESTIMATE : ℤ
  AXIS__ENCODER__POS_ESTIMATE : ℤ
  AXIS__MOTOR__CURRENT_CONTROL__IQ_SETPOINT : ℤ
  AXIS__CONTROLLER__INPUT_VEL : ℤ
  AXIS__CONTROLLER__INPUT_POS : ℤ
  per_axis_offset : ℤ

/-- The `ODriveUSB` collaborator: `init()` returning a libusb result code,
`read(handle, addr)` returning a result code and a value, and
`write(handle, addr, value)` returning a result code.  `0` is success. -/
structure Transport where
  init_result : ℤ
  tread : ℤ → ℤ × ℚ
  twrite : ℤ → ℚ → ℤ

/-- One register write issued through the transport: address and value. -/
structure WriteEv where
  addr : ℤ
  value : ℚ
deriving DecidableEq, Repr

/-- The member state of `ODriveHardwareInterface`.  `njoints` records
`info_.joints.size()` as stored by `configure_default`. State buffers hold
`Option ℚ`: `none` models the `quiet_NaN` sentinel they are initialized to,
`some v` a value stored by `read()`. -/
structure HWState where
  njoints : ℕ
  axis_ : List ℤ
  KV_ : List ℤ
  hw_commands_positions_ : List ℚ
  hw_commands_velocities_ : List ℚ
  hw_commands_efforts_ : List ℚ
  hw_positions_ : List (Option ℚ)
  hw_velocities_ : List (Option ℚ)
  hw_efforts_ : List (Option ℚ)
  control_level_ : List integration_level_t
  axis_requested_state_ : ℤ
  status_ : HwStatus

/-- A freshly constructed interface object: every vector empty. -/
def initState : HWState :=
  { njoints := 0
    axis_ := []
    KV_ := []
    hw_commands_positions_ := []
    hw_commands_velocities_ := []
    hw_commands_efforts_ := []
    hw_positions_ := []
    hw_velocities_ := []
    hw_efforts_ := []
    control_level_ := []
    axis_requested_state_ := 0
    status_ := .UNKNOWN }

/-! ### Unit conversions (the arithmetic of `read()` and `write()`) -/

/-- `hw_efforts_[i] = Iq_measured * 8.27 / KV_[i]` (read path). -/
def effortFromIq (iq : ℚ) (kv : ℤ) : ℚ := iq * 8.27 / (kv : ℚ)

/-- `hw_velocities_[i] = vel_estimate * 2 * M_PI` (read path). -/
def velocityFromTurns (v : ℚ) : ℚ := v * 2 * M_PI

/-- `hw_positions_[i] = pos_estimate * 2 * M_PI` (read path). -/
def positionFromTurns (p : ℚ) : ℚ := p * 2 * M_PI

/-- `Iq_setpoint = hw_commands_efforts_[i] / 8.27 * KV_[i]` (write path). -/
def iqFromEffort (e : ℚ) (kv : ℤ) : ℚ := e / 8.27 * (kv : ℚ)

/-- `input_vel = hw_commands_velocities_[i] / 2 / M_PI` (write path). -/
def turnsFromVelocity (v : ℚ) : ℚ := v / 2 / M_PI

/-- `input_pos = hw_commands_positions_[i] / 2 / M_PI` (write path). -/
def turnsFromPosition (p : ℚ) : ℚ := p / 2 / M_PI

/-! ### Register addresses -/

/-- `AXIS__MOTOR__CURRENT_CONTROL__IQ_MEASURED + per_axis_offset * axis_[i]`. -/
def iqMeasuredAddr (rm : RegMap) (axisL : List ℤ) (i : ℕ) : ℤ :=
  rm.AXIS__MOTOR__CURRENT_CONTROL__IQ_MEASURED + rm.per_axis_offset * axisL.getD i 0

/-- `AXIS__ENCODER__VEL_ESTIMATE + per_axis_offset * axis_[i]`. -/
def velEstimateAddr (rm : RegMap) (axisL : List ℤ) (i : ℕ) : ℤ :=
  rm.AXIS__ENCODER__VEL_ESTIMATE + rm.per_axis_offset * axisL.getD i 0

/-- `AXIS__ENCODER__POS_ESTIMATE + per_axis_offset * axis_[i]`. -/
def posEstimateAddr (rm : RegMap) (axisL : List ℤ) (i : ℕ) : ℤ :=
  rm.AXIS__ENCODER__POS_ESTIMATE + rm.per_axis_offset * axisL.getD i 0

/-- `AXIS__MOTOR__CURRENT_CONTROL__IQ_SETPOINT + per_axis_offset * axis_[i]`. -/
def iqSetpointAddr (rm : RegMap) (axisL : List ℤ) (i : ℕ) : ℤ :=
  rm.AXIS__MOTOR__CURRENT_CONTROL__IQ_SETPOINT + rm.per_axis_offset * axisL.getD i 0

/-- `AXIS__CONTROLLER__INPUT_VEL + per_axis_offset * axis_[i]`. -/
def inputVelAddr (rm : RegMap) (axisL : List ℤ) (i : ℕ) : ℤ :=
  rm.AXIS__CONTROLLER__INPUT_VEL + rm.per_axis_offset * axisL.getD i 0

/-- `AXIS__CONTROLLER__INPUT_POS + per_axis_offset * axis_[i]`. -/
def inputPosAddr (rm : RegMap) (axisL : List ℤ) (i : ℕ) : ℤ :=
  rm.AXIS__CONTROLLER__INPUT_POS + rm.per_axis_offset * axisL.getD i 0

/-- `AXIS__REQUESTED_STATE + per_axis_offset * axis_[i]`. -/
def requestedStateAddr (rm : RegMap) (axisL : List ℤ) (i : ℕ) : ℤ :=
  rm.AXIS__REQUESTED_STATE + rm.per_axis_offset * axisL.getD i 0

/-! ### read() -/

/-- The loop body of `ODriveHardwareInterface::read`, from joint `i`, for
`fuel` remaining joints.  For each joint: read `Iq_measured`, on failure
return `ERROR` immediately, else store the converted effort; likewise
`vel_estimate` then `pos_estimate`.  Also returns the list of register
addresses read, in order. -/
def readGo (rm : RegMap) (tp : Transport) : ℕ → ℕ → HWState → ReturnType × HWState × List ℤ
  | _, 0, s => (.OK, s, [])
  | i, fuel+1, s =>
    let a1 := iqMeasuredAddr rm s.axis_ i
    if (tp.tread a1).1 ≠ 0 then (.ERROR, s, [a1])
    else
      let s1 := { s with
        hw_efforts_ := s.hw_efforts_.set i (some (effortFromIq (tp.tread a1).2 (s.KV_.getD i 0))) }
      let a2 := velEstimateAddr rm s.axis_ i
      if (tp.tread a2).1 ≠ 0 then (.ERROR, s1, [a1, a2])
      else
        let s2 := { s1 with
          hw_velocities_ := s1.hw_velocities_.set i (some (velocityFromTurns (tp.tread a2).2)) }
        let a3 := posEstimateAddr rm s.axis_ i
        if (tp.tread a3).1 ≠ 0 then (.ERROR, s2, [a1, a2, a3])
        else
          let s3 := { s2 with
            hw_positions_ := s2.hw_positions_.set i (some (positionFromTurns (tp.tread a3).2)) }
          let r := readGo rm tp (i+1) fuel s3
          (r.1, r.2.1, a1 :: a2 :: a3 :: r.2.2)

/-! ### write() -/

/-- The loop body of `ODriveHardwareInterface::write`, from joint `i`, for
`fuel` remaining joints: `switch (control_level_[i])`.  `UNDEFINED` logs and
`return return_type::OK` — ending the whole call; the three defined modes
convert the matching command buffer entry and issue one register write,
returning `ERROR` on a nonzero transport result.  `write` mutates no member
state, so only the status and the issued write events are returned. -/
def writeGo (rm : RegMap) (tp : Transport) (s : HWState) : ℕ → ℕ → ReturnType × List WriteEv
  | _, 0 => (.OK, [])
  | i, fuel+1 =>
    match s.control_level_.getD i .UNDEFINED with
    | .UNDEFINED => (.OK, [])
    | .EFFORT =>
      let v := iqFromEffort (s.hw_commands_efforts_.getD i 0) (s.KV_.getD i 0)
      let a := iqSetpointAddr rm s.axis_ i
      if tp.twrite a v ≠ 0 then (.ERROR, [⟨a, v⟩])
      else
        let r := writeGo rm tp s (i+1) fuel
        (r.1, ⟨a, v⟩ :: r.2)
    | .VELOCITY =>
      let v := turnsFromVelocity (s.hw_commands_velocities_.getD i 0)
      let a := inputVelAddr rm s.axis_ i
      if tp.twrite a v ≠ 0 then (.ERROR, [⟨a, v⟩])
      else
        let r := writeGo rm tp s (i+1) fuel
        (r.1, ⟨a, v⟩ :: r.2)
    | .POSITION =>
      let v := turnsFromPosition (s.hw_commands_positions_.getD i 0)
      let a := inputPosAddr rm s.axis_ i
      if tp.twrite a v ≠ 0 then (.ERROR, [⟨a, v⟩])
      else
        let r := writeGo rm tp s (i+1) fuel
        (r.1, ⟨a, v⟩ :: r.2)

/-- Specification-side description of the one register write `write()`
issues for joint `i` when its control level is defined (junk for
`UNDEFINED`, where the source issues none). -/
def jointWriteEv (rm : RegMap) (s : HWState) (i : ℕ) : WriteEv :=
  match s.control_level_.getD i .UNDEFINED with
  | .UNDEFINED => ⟨0, 0⟩
  | .EFFORT =>
    ⟨iqSetpointAddr rm s.axis_ i, iqFromEffort (s.hw_commands_efforts_.getD i 0) (s.KV_.getD i 0)⟩
  | .VELOCITY =>
    ⟨inputVelAddr rm s.axis_ i, turnsFromVelocity (s.hw_commands_velocities_.getD i 0)⟩
  | .POSITION =>
    ⟨inputPosAddr rm s.axis_ i, turnsFromPosition (s.hw_commands_positions_.getD i 0)⟩

/-- Specification-side list of the writes `write()` issues for `count`
consecutive joints starting at `i`, when all their control levels are
defined and no transport failure intervenes. -/
def expectedWritesFrom (rm : RegMap) (s : HWState) : ℕ → ℕ → List WriteEv
  | _, 0 => []
  | i, count+1 => jointWriteEv rm s i :: expectedWritesFrom rm s (i+1) count

/-- Specification-side list of the register addresses `read()` polls for
`count` consecutive joints starting at `i`: per joint, measured current,
velocity estimate, position estimate, in that order. -/
def readAddrsFrom (rm : RegMap) (axisL : List ℤ) : ℕ → ℕ → List ℤ
  | _, 0 => []
  | i, count+1 =>
    iqMeasuredAddr rm axisL i :: velEstimateAddr rm axisL i :: posEstimateAddr rm axisL i ::
      readAddrsFrom rm axisL (i+1) count

/-- The three addresses `read()` polls for a single joint, in order. -/
def jointReadAddrs (rm : RegMap) (axisL : List ℤ) (i : ℕ) : List ℤ :=
  [iqMeasuredAddr rm axisL i, velEstimateAddr rm axisL i, posEstimateAddr rm axisL i]

/-! ### start() / stop() -/

/-- The shared loop of `start()`/`stop()`: write `value`
(`axis_requested_state_`) to each joint's requested-state register,
returning `ERROR` on the first nonzero transport result. -/
def axisStateGo (rm : RegMap) (tp : Transport) (axisL : List ℤ) (value : ℚ) :
    ℕ → ℕ → ReturnType × List WriteEv
  | _, 0 => (.OK, [])
  | i, fuel+1 =>
    let a := requestedStateAddr rm axisL i
    if tp.twrite a value ≠ 0 then (.ERROR, [⟨a, value⟩])
    else
      let r := axisStateGo rm tp axisL value (i+1) fuel
      (r.1, ⟨a, value⟩ :: r.2)

/-- Specification-side list of requested-state writes for `count` joints
starting at `i`, all with the same `value`. -/
def reqWritesFrom (rm : RegMap) (axisL : List ℤ) (value : ℚ) : ℕ → ℕ → List WriteEv
  | _, 0 => []
  | i, count+1 => ⟨requestedStateAddr rm axisL i, value⟩ :: reqWritesFrom rm axisL value (i+1) count

/-! ### configure() -/

/-- One declared command or state interface (only its name matters here). -/
structure InterfaceInfo where
  name : String
deriving DecidableEq, Repr

/-- `hardware_interface::ComponentInfo`, restricted to the fields the source
uses. `parameters` is the per-joint key/value map. -/
structure ComponentInfo where
  name : String
  command_interfaces : List InterfaceInfo
  state_interfaces : List InterfaceInfo
  parameters : List (String × String)
deriving DecidableEq, Repr

/-- `hardware_interface::HardwareInfo`, restricted to `joints`. -/
structure HardwareInfo where
  joints : List ComponentInfo
deriving DecidableEq, Repr

/-- A default joint record used only as the out-of-range default of `getD`. -/
def emptyJoint : ComponentInfo := ⟨"", [], [], []⟩

/-- The C++ exceptions that can escape `configure()`:
`std::out_of_range` (from `std::map::at` and `std::stoi`) and
`std::invalid_argument` (from `std::stoi`). -/
inductive ExnKind
  | out_of_range
  | invalid_argument
deriving DecidableEq, Repr

/-- How `configure()` can end: normal `OK`, normal `ERROR`, or an uncaught
C++ exception propagating out of the call. -/
inductive ConfigOutcome
  | ok
  | error
  | exn (e : ExnKind)
deriving DecidableEq, Repr

/-- Whether a `ConfigOutcome` is an escaping exception. -/
def ConfigOutcome.isExn : ConfigOutcome → Bool
  | .exn _ => true
  | _ => false

/-- How the per-joint validation loop of `configure()` can exit early:
`return return_type::ERROR`, or a thrown exception. -/
inductive LoopExit
  | err
  | exn (e : ExnKind)
deriving DecidableEq, Repr

/-- `isspace` (C locale), as used by `std::stoi` via `strtol`. -/
def isSpaceC (c : Char) : Bool :=
  c = ' ' || c = '\t' || c = '\n' || c = '\x0b' || c = '\x0c' || c = '\r'

/-- Decimal digit test. -/
def isDigitC (c : Char) : Bool := '0' ≤ c && c ≤ '9'

/-- Accumulate a decimal digit string into a natural number. -/
def digitsToNat : List Char → ℕ → ℕ
  | [], acc => acc
  | c :: cs, acc => digitsToNat cs (acc * 10 + (c.toNat - 48))

/-- `std::stoi` (base 10): skip leading whitespace, optional sign, then a
nonempty digit run; throws `invalid_argument` when no digits are found and
`out_of_range` when the value does not fit in `int`. -/
def stoi (str : String) : Except ExnKind ℤ :=
  let cs := str.toList.dropWhile isSpaceC
  let sgn : ℤ := match cs with
    | '-' :: _ => -1
    | _ => 1
  let cs2 : List Char := match cs with
    | '+' :: r => r
    | '-' :: r => r
    | _ => cs
  let ds := cs2.takeWhile isDigitC
  if ds.isEmpty then .error .invalid_argument
  else
    let v : ℤ := sgn * (digitsToNat ds 0 : ℤ)
    if v < -2147483648 ∨ 2147483647 < v then .error .out_of_range
    else .ok v

/-- `std::map::at`-style lookup in the per-joint parameter map; `none`
models the key being absent (where `at` throws `std::out_of_range`). -/
def lookupParam (ps : List (String × String)) (key : String) : Option String :=
  match ps.find? (fun p => p.1 == key) with
  | none => none
  | some p => some p.2

/-- Whether an interface name is one of position/velocity/effort. -/
def kindOk (n : String) : Bool :=
  n == HW_IF_POSITION || n == HW_IF_VELOCITY || n == HW_IF_EFFORT

/-- The name of the first declared interface in a list (the source indexes
`[0]` only after checking the size is 3). -/
def firstIfaceName (l : List InterfaceInfo) : String := (l.headD ⟨""⟩).name

/-- The four interface checks `configure()` runs per joint, in source
order: command size = 3, first command kind recognized, state size = 3,
first state kind recognized.  All four exit with `return_type::ERROR`. -/
def interfacesOk (j : ComponentInfo) : Bool :=
  j.command_interfaces.length == 3 && kindOk (firstIfaceName j.command_interfaces) &&
    (j.state_interfaces.length == 3 && kindOk (firstIfaceName j.state_interfaces))

/-- Specification-side combined parse of a joint's `axis` and `KV`
parameters: `some (axis, KV)` exactly when `configure()`'s
`stoi(parameters.at(...))` calls would both succeed. -/
def parseJointParams (j : ComponentInfo) : Option (ℤ × ℤ) :=
  match lookupParam j.parameters "axis" with
  | none => none
  | some sa =>
    match stoi sa with
    | .error _ => none
    | .ok a =>
      match lookupParam j.parameters "KV" with
      | none => none
      | some sk =>
        match stoi sk with
        | .error _ => none
        | .ok kv => some (a, kv)

/-- The parsed `axis` of a joint that passes `parseJointParams`. -/
def axisOf (j : ComponentInfo) : ℤ := ((parseJointParams j).getD (0, 0)).1

/-- The parsed `KV` of a joint that passes `parseJointParams`. -/
def kvOf (j : ComponentInfo) : ℤ := ((parseJointParams j).getD (0, 0)).2

/-- The `for (joint : info_.joints)` loop of `configure()`: per joint, run
the four interface checks (early `ERROR` exit), then
`axis_.push_back(stoi(parameters.at("axis")))` and the same for `KV`,
where a missing key or failed parse throws out of the call, leaving the
pushes made so far in place. -/
def configureLoop : List ComponentInfo → HWState → Option LoopExit × HWState
  | [], s => (none, s)
  | j :: rest, s =>
    if !interfacesOk j then (some .err, s)
    else
      match lookupParam j.parameters "axis" with
      | none => (some (.exn .out_of_range), s)
      | some sa =>
        match stoi sa with
        | .error e => (some (.exn e), s)
        | .ok a =>
          let s1 := { s with axis_ := s.axis_ ++ [a] }
          match lookupParam j.parameters "KV" with
          | none => (some (.exn .out_of_range), s1)
          | some sk =>
            match stoi sk with
            | .error e => (some (.exn e), s1)
            | .ok kv => configureLoop rest { s1 with KV_ := s1.KV_ ++ [kv] }

/-- `std::vector::resize(n, v)`: truncate to `n` or pad with copies of `v`. -/
def listResize (l : List α) (n : ℕ) (v : α) : List α :=
  l.take n ++ List.replicate (n - l.length) v

/-- Lines 27-33 of `configure()`: `info_` stored by `configure_default`
(modelled as the joint count), then the six double buffers resized with
their fill values (`quiet_NaN` for state, `0` for commands) and
`control_level_` resized with `VELOCITY`. -/
def resizedState (info : HardwareInfo) (s : HWState) : HWState :=
  { s with
    njoints := info.joints.length
    hw_positions_ := listResize s.hw_positions_ info.joints.length none
    hw_velocities_ := listResize s.hw_velocities_ info.joints.length none
    hw_efforts_ := listResize s.hw_efforts_ info.joints.length none
    hw_commands_positions_ := listResize s.hw_commands_positions_ info.joints.length 0
    hw_commands_velocities_ := listResize s.hw_commands_velocities_ info.joints.length 0
    hw_commands_efforts_ := listResize s.hw_commands_efforts_ info.joints.length 0
    control_level_ := listResize s.control_level_ info.joints.length .VELOCITY }

namespace ODriveHardwareInterface

/-- `ODriveHardwareInterface::read`. -/
def read (rm : RegMap) (tp : Transport) (s : HWState) : ReturnType × HWState × List ℤ :=
  readGo rm tp 0 s.njoints s

/-- `ODriveHardwareInterface::write`. -/
def write (rm : RegMap) (tp : Transport) (s : HWState) : ReturnType × List WriteEv :=
  writeGo rm tp s 0 s.njoints

/-- `ODriveHardwareInterface::start`: set `axis_requested_state_` to
`AXIS_STATE_CLOSED_LOOP_CONTROL`, write it to every joint's requested-state
register (first failure returns `ERROR`), and mark `STARTED` on success. -/
def start (rm : RegMap) (tp : Transport) (s : HWState) : ReturnType × HWState × List WriteEv :=
  let s1 := { s with axis_requested_state_ := AXIS_STATE_CLOSED_LOOP_CONTROL }
  let r := axisStateGo rm tp s1.axis_ (AXIS_STATE_CLOSED_LOOP_CONTROL : ℚ) 0 s1.njoints
  match r.1 with
  | .OK => (.OK, { s1 with status_ := .STARTED }, r.2)
  | .ERROR => (.ERROR, s1, r.2)

/-- `ODriveHardwareInterface::stop`: same loop with `AXIS_STATE_IDLE`,
marking `STOPPED` on success. -/
def stop (rm : RegMap) (tp : Transport) (s : HWState) : ReturnType × HWState × List WriteEv :=
  let s1 := { s with axis_requested_state_ := AXIS_STATE_IDLE }
  let r := axisStateGo rm tp s1.axis_ (AXIS_STATE_IDLE : ℚ) 0 s1.njoints
  match r.1 with
  | .OK => (.OK, { s1 with status_ := .STOPPED }, r.2)
  | .ERROR => (.ERROR, s1, r.2)

/-- `ODriveHardwareInterface::configure`: store the joint count
(`configure_default`), resize the six double buffers (NaN / zero fill)
and `control_level_` (VELOCITY fill), run the per-joint validation loop,
then initialize the transport (`odrive->init()`), failing with `ERROR` on a
nonzero result; on success mark `CONFIGURED`. -/
def configure (tp : Transport) (info : HardwareInfo) (s : HWState) : ConfigOutcome × HWState :=
  match configureLoop info.joints (resizedState info s) with
  | (some .err, s1) => (.error, s1)
  | (some (.exn e), s1) => (.exn e, s1)
  | (none, s1) =>
    if tp.init_result ≠ 0 then (.error, s1)
    else (.ok, { s1 with status_ := .CONFIGURED })

end ODriveHardwareInterface

/-! ### Specification-side predicates about one cycle -/

/-- All three of joint `i`'s register reads succeed under `tp`. -/
def jointReadOk (rm : RegMap) (tp : Transport) (axisL : List ℤ) (i : ℕ) : Bool :=
  (tp.tread (iqMeasuredAddr rm axisL i)).1 == 0 &&
    ((tp.tread (velEstimateAddr rm axisL i)).1 == 0 &&
      (tp.tread (posEstimateAddr rm axisL i)).1 == 0)

/-- Joint `j`'s register reads fail first at position `p` (0 = measured
current, 1 = velocity estimate, 2 = position estimate). -/
def jointReadFailAt (rm : RegMap) (tp : Transport) (axisL : List ℤ) (j p : ℕ) : Bool :=
  match p with
  | 0 => !((tp.tread (iqMeasuredAddr rm axisL j)).1 == 0)
  | 1 =>
    (tp.tread (iqMeasuredAddr rm axisL j)).1 == 0 &&
      !((tp.tread (velEstimateAddr rm axisL j)).1 == 0)
  | 2 =>
    (tp.tread (iqMeasuredAddr rm axisL j)).1 == 0 &&
      ((tp.tread (velEstimateAddr rm axisL j)).1 == 0 &&
        !((tp.tread (posEstimateAddr rm axisL j)).1 == 0))
  | _ + 3 => false

/-- The value `read()` stores into `hw_efforts_[k]` on a successful read of
joint `k` this cycle. -/
def readStoredEffort (rm : RegMap) (tp : Transport) (s : HWState) (k : ℕ) : Option ℚ :=
  some (effortFromIq (tp.tread (iqMeasuredAddr rm s.axis_ k)).2 (s.KV_.getD k 0))

/-- The value `read()` stores into `hw_velocities_[k]` this cycle. -/
def readStoredVelocity (rm : RegMap) (tp : Transport) (s : HWState) (k : ℕ) : Option ℚ :=
  some (velocityFromTurns (tp.tread (velEstimateAddr rm s.axis_ k)).2)

/-- The value `read()` stores into `hw_positions_[k]` this cycle. -/
def readStoredPosition (rm : RegMap) (tp : Transport) (s : HWState) (k : ℕ) : Option ℚ :=
  some (positionFromTurns (tp.tread (posEstimateAddr rm s.axis_ k)).2)

/-- Everything `read()` leaves alone: every member except the three state
buffers, whose lengths are still preserved. -/
def ReadFrame (s s' : HWState) : Prop :=
  s'.njoints = s.njoints ∧ s'.axis_ = s.axis_ ∧ s'.KV_ = s.KV_ ∧
    s'.hw_commands_positions_ = s.hw_commands_positions_ ∧
    s'.hw_commands_velocities_ = s.hw_commands_velocities_ ∧
    s'.hw_commands_efforts_ = s.hw_commands_efforts_ ∧
    s'.control_level_ = s.control_level_ ∧
    s'.axis_requested_state_ = s.axis_requested_state_ ∧
    s'.status_ = s.status_ ∧
    s'.hw_positions_.length = s.hw_positions_.length ∧
    s'.hw_velocities_.length = s.hw_velocities_.length ∧
    s'.hw_efforts_.length = s.hw_efforts_.length

/-- The member state after `read()` has stored joint `i`'s converted effort
(the source's `s1`). -/
def readJointUpdE (rm : RegMap) (tp : Transport) (s : HWState) (i : ℕ) : HWState :=
  { s with
    hw_efforts_ := s.hw_efforts_.set i
      (some (effortFromIq (tp.tread (iqMeasuredAddr rm s.axis_ i)).2 (s.KV_.getD i 0))) }

/-- ... and also joint `i`'s converted velocity (the source's `s2`). -/
def readJointUpdEV (rm : RegMap) (tp : Transport) (s : HWState) (i : ℕ) : HWState :=
  { readJointUpdE rm tp s i with
    hw_velocities_ := (readJointUpdE rm tp s i).hw_velocities_.set i
      (some (velocityFromTurns (tp.tread (velEstimateAddr rm s.axis_ i)).2)) }

/-- ... and also joint `i`'s converted position: the state after a fully
successful processing of joint `i` (the source's `s3`). -/
def readJointUpd (rm : RegMap) (tp : Transport) (s : HWState) (i : ℕ) : HWState :=
  { readJointUpdEV rm tp s i with
    hw_positions_ := (readJointUpdEV rm tp s i).hw_positions_.set i
      (some (positionFromTurns (tp.tread (posEstimateAddr rm s.axis_ i)).2)) }

/-- Whether the two member states agree on the command-buffer entry that
joint `i`'s current control level actually consults on `write`. -/
def cmdAgree (s1 s2 : HWState) (i : ℕ) : Bool :=
  match s1.control_level_.getD i .UNDEFINED with
  | .UNDEFINED => true
  | .EFFORT => s1.hw_commands_efforts_.getD i 0 == s2.hw_commands_efforts_.getD i 0
  | .VELOCITY => s1.hw_commands_velocities_.getD i 0 == s2.hw_commands_velocities_.getD i 0
  | .POSITION => s1.hw_commands_positions_.getD i 0 == s2.hw_commands_positions_.getD i 0

/-- The four per-cycle/lifecycle operations callable after `configure`. -/
inductive Op
  | opStart
  | opStop
  | opRead
  | opWrite
deriving DecidableEq, Repr

/-- One framework call: an operation together with the register map and
transport it runs against. -/
structure OpCall where
  rm : RegMap
  tp : Transport
  op : Op

/-- The member state after one framework call.  `write()` mutates no member
state in the source, so `opWrite` returns the state unchanged. -/
def applyOp (c : OpCall) (s : HWState) : HWState :=
  match c.op with
  | .opStart => (ODriveHardwareInterface.start c.rm c.tp s).2.1
  | .opStop => (ODriveHardwareInterface.stop c.rm c.tp s).2.1
  | .opRead => (ODriveHardwareInterface.read c.rm c.tp s).2.1
  | .opWrite => s

/-- The member state after a sequence of framework calls. -/
def applyOps : List OpCall → HWState → HWState
  | [], s => s
  | c :: cs, s => applyOps cs (applyOp c s)

/-- All nine per-joint vectors have length `n`. -/
def BufLens (s : HWState) (n : ℕ) : Prop :=
  s.hw_positions_.length = n ∧ s.hw_velocities_.length = n ∧ s.hw_efforts_.length = n ∧
    s.hw_commands_positions_.length = n ∧ s.hw_commands_velocities_.length = n ∧
    s.hw_commands_efforts_.length = n ∧ s.control_level_.length = n ∧
    s.axis_.length = n ∧ s.KV_.length = n

/-! ### Concrete fixtures (used by the closed instance theorems) -/

/-- A concrete register map. -/
def rmW : RegMap := ⟨1000, 100, 200, 300, 400, 500, 600, 10⟩

/-- A transport whose operations all succeed; reads report the register
address itself as the value, so conversions are observable. -/
def tpW : Transport := ⟨0, fun a => (0, (a : ℚ)), fun _ _ => 0⟩

/-- A transport whose read of register 110 (= `rmW` measured current of
axis 1) fails with -1; everything else succeeds. -/
def tpReadFail110 : Transport :=
  ⟨0, fun a => (if a = 110 then -1 else 0, (a : ℚ)), fun _ _ => 0⟩

/-- A transport whose write to register 510 (= `rmW` velocity input of
axis 1) fails with -1; everything else succeeds. -/
def tpWriteFail510 : Transport :=
  ⟨0, fun a => (0, (a : ℚ)), fun a _ => if a = 510 then -1 else 0⟩

/-- A transport whose write to register 410 (= `rmW` current setpoint of
axis 1) fails with -1; everything else succeeds. -/
def tpWriteFail410 : Transport :=
  ⟨0, fun a => (0, (a : ℚ)), fun a _ => if a = 410 then -1 else 0⟩

/-- A transport whose write to register 1010 (= `rmW` requested state of
axis 1) fails with -1; everything else succeeds. -/
def tpWriteFail1010 : Transport :=
  ⟨0, fun a => (0, (a : ℚ)), fun a _ => if a = 1010 then -1 else 0⟩

/-- A joint with valid interfaces, axis 0, KV 50. -/
def jW0 : ComponentInfo :=
  ⟨"joint0", [⟨"velocity"⟩, ⟨"position"⟩, ⟨"effort"⟩],
    [⟨"position"⟩, ⟨"velocity"⟩, ⟨"effort"⟩], [("axis", "0"), ("KV", "50")]⟩

/-- A joint with valid interfaces, axis 1, KV 100. -/
def jW1 : ComponentInfo :=
  ⟨"joint1", [⟨"effort"⟩, ⟨"position"⟩, ⟨"velocity"⟩],
    [⟨"velocity"⟩, ⟨"position"⟩, ⟨"effort"⟩], [("axis", "1"), ("KV", "100")]⟩

/-- A joint with valid interfaces but no `axis` parameter. -/
def jWnoAxis : ComponentInfo :=
  ⟨"joint2", [⟨"velocity"⟩, ⟨"position"⟩, ⟨"effort"⟩],
    [⟨"position"⟩, ⟨"velocity"⟩, ⟨"effort"⟩], [("KV", "50")]⟩

/-- A joint with a non-numeric `axis` parameter. -/
def jWbadAxis : ComponentInfo :=
  ⟨"joint3", [⟨"velocity"⟩, ⟨"position"⟩, ⟨"effort"⟩],
    [⟨"position"⟩, ⟨"velocity"⟩, ⟨"effort"⟩], [("axis", "zero"), ("KV", "50")]⟩

/-- A joint with only two command interfaces (invalid). -/
def jWtwoIfaces : ComponentInfo :=
  ⟨"joint4", [⟨"velocity"⟩, ⟨"position"⟩],
    [⟨"position"⟩, ⟨"velocity"⟩, ⟨"effort"⟩], [("axis", "1"), ("KV", "7")]⟩

/-- A two-joint hardware description that configures successfully. -/
def infoW : HardwareInfo := ⟨[jW0, jW1]⟩

/-- A configured two-joint member state (axes 0 and 1, KV 50 and 100),
both joints in VELOCITY mode, with distinct integer command values. -/
def sW : HWState :=
  { njoints := 2
    axis_ := [0, 1]
    KV_ := [50, 100]
    hw_commands_positions_ := [3, 4]
    hw_commands_velocities_ := [5, 6]
    hw_commands_efforts_ := [7, 9]
    hw_positions_ := [none, none]
    hw_velocities_ := [none, none]
    hw_efforts_ := [none, none]
    control_level_ := [.VELOCITY, .VELOCITY]
    axis_requested_state_ := 0
    status_ := .CONFIGURED }

/-- `sW` with joint 1 left `UNDEFINED`. -/
def sWU : HWState := { sW with control_level_ := [.VELOCITY, .UNDEFINED] }

/-- `sW` with three joints: VELOCITY, EFFORT, POSITION modes. -/
def sW3 : HWState :=
  { njoints := 3
    axis_ := [0, 1, 2]
    KV_ := [50, 100, 25]
    hw_commands_positions_ := [3, 4, 11]
    hw_commands_velocities_ := [5, 6, 12]
    hw_commands_efforts_ := [7, 9, 13]
    hw_positions_ := [none, none, none]
    hw_velocities_ := [none, none, none]
    hw_efforts_ := [none, none, none]
    control_level_ := [.VELOCITY, .EFFORT, .POSITION]
    axis_requested_state_ := 0
    status_ := .CONFIGURED }

/-- `sW3` with the two command-buffer entries that no joint's control level
consults changed (joint 0 is VELOCITY, yet its position/effort commands
differ; etc.); the consulted entries agree with `sW3`. -/
def sW3' : HWState :=
  { sW3 with
    hw_commands_positions_ := [77, 78, 11]
    hw_commands_velocities_ := [5, 79, 80]
    hw_commands_efforts_ := [81, 9, 82] }

theorem ReadFrame.rfl (s : HWState) : ReadFrame s s := by
  simp [ReadFrame]

theorem ReadFrame.trans {s t u : HWState} (h1 : ReadFrame s t) (h2 : ReadFrame t u) :
    ReadFrame s u := by
  obtain ⟨a1, a2, a3, a4, a5, a6, a7, a8, a9, a10, a11, a12⟩ := h1
  obtain ⟨b1, b2, b3, b4, b5, b6, b7, b8, b9, b10, b11, b12⟩ := h2
  exact ⟨b1.trans a1, b2.trans a2, b3.trans a3, b4.trans a4, b5.trans a5, b6.trans a6,
    b7.trans a7, b8.trans a8, b9.trans a9, b10.trans a10, b11.trans a11, b12.trans a12⟩

theorem readGo_frame (rm : RegMap) (tp : Transport) :
    ∀ (fuel i : ℕ) (s : HWState), ReadFrame s (readGo rm tp i fuel s).2.1 := by
  intro fuel
  induction fuel with
  | zero => intro i s; simpa [readGo] using ReadFrame.rfl s
  | succ fuel ih =>
    intro i s
    simp only [readGo]
    split
    · exact ReadFrame.rfl s
    · split
      · simp [ReadFrame, List.length_set]
      · split
        · simp [ReadFrame, List.length_set]
        · refine ReadFrame.trans ?_ (ih (i+1) _)
          simp [ReadFrame, List.length_set]

theorem readGo_untouched (rm : RegMap) (tp : Transport) :
    ∀ (fuel i : ℕ) (s : HWState) (k : ℕ), k < i ∨ i + fuel ≤ k →
      (readGo rm tp i fuel s).2.1.hw_positions_[k]? = s.hw_positions_[k]? ∧
      (readGo rm tp i fuel s).2.1.hw_velocities_[k]? = s.hw_velocities_[k]? ∧
      (readGo rm tp i fuel s).2.1.hw_efforts_[k]? = s.hw_efforts_[k]? := by
  intro fuel
  induction fuel with
  | zero => intro i s k _; simp [readGo]
  | succ fuel ih =>
    intro i s k hk
    have hik : i ≠ k := by omega
    simp only [readGo]
    split
    · simp
    · split
      · simp [List.getElem?_set_ne hik]
      · split
        · simp [List.getElem?_set_ne hik]
        · refine ⟨?_, ?_, ?_⟩
          · rw [(ih (i+1) _ k (by omega)).1]
            simp [List.getElem?_set_ne hik]
          · rw [(ih (i+1) _ k (by omega)).2.1]
            simp [List.getElem?_set_ne hik]
          · rw [(ih (i+1) _ k (by omega)).2.2]
            simp [List.getElem?_set_ne hik]

theorem readGo_succ_ok (rm : RegMap) (tp : Transport) (i fuel : ℕ) (s : HWState)
    (e1 : (tp.tread (iqMeasuredAddr rm s.axis_ i)).1 = 0)
    (e2 : (tp.tread (velEstimateAddr rm s.axis_ i)).1 = 0)
    (e3 : (tp.tread (posEstimateAddr rm s.axis_ i)).1 = 0) :
    readGo rm tp i (fuel+1) s =
      ((readGo rm tp (i+1) fuel (readJointUpd rm tp s i)).1,
       (readGo rm tp (i+1) fuel (readJointUpd rm tp s i)).2.1,
       iqMeasuredAddr rm s.axis_ i :: velEstimateAddr rm s.axis_ i :: posEstimateAddr rm s.axis_ i ::
         (readGo rm tp (i+1) fuel (readJointUpd rm tp s i)).2.2) := by
  simp [readGo, e1, e2, e3, readJointUpd, readJointUpdEV, readJointUpdE, readStoredEffort,
    readStoredVelocity, readStoredPosition]

theorem readGo_succ_fail0 (rm : RegMap) (tp : Transport) (i fuel : ℕ) (s : HWState)
    (e1 : (tp.tread (iqMeasuredAddr rm s.axis_ i)).1 ≠ 0) :
    readGo rm tp i (fuel+1) s = (.ERROR, s, [iqMeasuredAddr rm s.axis_ i]) := by
  simp [readGo, e1]

theorem readGo_succ_fail1 (rm : RegMap) (tp : Transport) (i fuel : ℕ) (s : HWState)
    (e1 : (tp.tread (iqMeasuredAddr rm s.axis_ i)).1 = 0)
    (e2 : (tp.tread (velEstimateAddr rm s.axis_ i)).1 ≠ 0) :
    readGo rm tp i (fuel+1) s =
      (.ERROR, readJointUpdE rm tp s i,
        [iqMeasuredAddr rm s.axis_ i, velEstimateAddr rm s.axis_ i]) := by
  simp [readGo, e1, e2, readJointUpdE]

theorem readGo_succ_fail2 (rm : RegMap) (tp : Transport) (i fuel : ℕ) (s : HWState)
    (e1 : (tp.tread (iqMeasuredAddr rm s.axis_ i)).1 = 0)
    (e2 : (tp.tread (velEstimateAddr rm s.axis_ i)).1 = 0)
    (e3 : (tp.tread (posEstimateAddr rm s.axis_ i)).1 ≠ 0) :
    readGo rm tp i (fuel+1) s =
      (.ERROR, readJointUpdEV rm tp s i,
        [iqMeasuredAddr rm s.axis_ i, velEstimateAddr rm s.axis_ i, posEstimateAddr rm s.axis_ i]) := by
  simp [readGo, e1, e2, e3, readJointUpdE, readJointUpdEV]

theorem readJointUpd_axis (rm : RegMap) (tp : Transport) (s : HWState) (i : ℕ) :
    (readJointUpd rm tp s i).axis_ = s.axis_ := rfl

theorem readJointUpd_KV (rm : RegMap) (tp : Transport) (s : HWState) (i : ℕ) :
    (readJointUpd rm tp s i).KV_ = s.KV_ := rfl

theorem readJointUpd_len_eff (rm : RegMap) (tp : Transport) (s : HWState) (i : ℕ) :
    (readJointUpd rm tp s i).hw_efforts_.length = s.hw_efforts_.length := by
  simp [readJointUpd, readJointUpdEV, readJointUpdE]

theorem readJointUpd_len_vel (rm : RegMap) (tp : Transport) (s : HWState) (i : ℕ) :
    (readJointUpd rm tp s i).hw_velocities_.length = s.hw_velocities_.length := by
  simp [readJointUpd, readJointUpdEV, readJointUpdE]

theorem readJointUpd_len_pos (rm : RegMap) (tp : Transport) (s : HWState) (i : ℕ) :
    (readJointUpd rm tp s i).hw_positions_.length = s.hw_positions_.length := by
  simp [readJointUpd, readJointUpdEV, readJointUpdE]

theorem readJointUpd_eff_self (rm : RegMap) (tp : Transport) (s : HWState) (i : ℕ)
    (h : i < s.hw_efforts_.length) :
    (readJointUpd rm tp s i).hw_efforts_[i]? = some (readStoredEffort rm tp s i) := by
  simp only [readJointUpd, readJointUpdEV, readJointUpdE, readStoredEffort]
  exact List.getElem?_set_eq_of_lt _ h

theorem readJointUpd_vel_self (rm : RegMap) (tp : Transport) (s : HWState) (i : ℕ)
    (h : i < s.hw_velocities_.length) :
    (readJointUpd rm tp s i).hw_velocities_[i]? = some (readStoredVelocity rm tp s i) := by
  simp only [readJointUpd, readJointUpdEV, readJointUpdE, readStoredVelocity]
  exact List.getElem?_set_eq_of_lt _ h

theorem readJointUpd_pos_self (rm : RegMap) (tp : Transport) (s : HWState) (i : ℕ)
    (h : i < s.hw_positions_.length) :
    (readJointUpd rm tp s i).hw_positions_[i]? = some (readStoredPosition rm tp s i) := by
  simp only [readJointUpd, readJointUpdEV, readJointUpdE, readStoredPosition]
  exact List.getElem?_set_eq_of_lt _ h

theorem readJointUpd_getElem_ne (rm : RegMap) (tp : Transport) (s : HWState) (i k : ℕ)
    (h : i ≠ k) :
    (readJointUpd rm tp s i).hw_positions_[k]? = s.hw_positions_[k]? ∧
    (readJointUpd rm tp s i).hw_velocities_[k]? = s.hw_velocities_[k]? ∧
    (readJointUpd rm tp s i).hw_efforts_[k]? = s.hw_efforts_[k]? :=
  ⟨List.getElem?_set_ne h, List.getElem?_set_ne h, List.getElem?_set_ne h⟩

theorem readJointUpdE_getElem_ne (rm : RegMap) (tp : Transport) (s : HWState) (i k : ℕ)
    (h : i ≠ k) :
    (readJointUpdE rm tp s i).hw_positions_[k]? = s.hw_positions_[k]? ∧
    (readJointUpdE rm tp s i).hw_velocities_[k]? = s.hw_velocities_[k]? ∧
    (readJointUpdE rm tp s i).hw_efforts_[k]? = s.hw_efforts_[k]? :=
  ⟨rfl, rfl, List.getElem?_set_ne h⟩

theorem readJointUpdEV_getElem_ne (rm : RegMap) (tp : Transport) (s : HWState) (i k : ℕ)
    (h : i ≠ k) :
    (readJointUpdEV rm tp s i).hw_positions_[k]? = s.hw_positions_[k]? ∧
    (readJointUpdEV rm tp s i).hw_velocities_[k]? = s.hw_velocities_[k]? ∧
    (readJointUpdEV rm tp s i).hw_efforts_[k]? = s.hw_efforts_[k]? :=
  ⟨rfl, List.getElem?_set_ne h, List.getElem?_set_ne h⟩

theorem readGo_ok (rm : RegMap) (tp : Transport) :
    ∀ (fuel i : ℕ) (s : HWState),
      (∀ k, i ≤ k → k < i + fuel → jointReadOk rm tp s.axis_ k = true) →
      (readGo rm tp i fuel s).1 = .OK ∧
      (readGo rm tp i fuel s).2.2 = readAddrsFrom rm s.axis_ i fuel ∧
      ∀ k, i ≤ k → k < i + fuel →
        (k < s.hw_efforts_.length →
          (readGo rm tp i fuel s).2.1.hw_efforts_[k]? = some (readStoredEffort rm tp s k)) ∧
        (k < s.hw_velocities_.length →
          (readGo rm tp i fuel s).2.1.hw_velocities_[k]? = some (readStoredVelocity rm tp s k)) ∧
        (k < s.hw_positions_.length →
          (readGo rm tp i fuel s).2.1.hw_positions_[k]? = some (readStoredPosition rm tp s k)) := by
  intro fuel
  induction fuel with
  | zero =>
    intro i s hok
    exact ⟨by simp [readGo], by simp [readGo, readAddrsFrom], by intro k h1 h2; omega⟩
  | succ fuel ih =>
    intro i s hok
    have h0 := hok i le_rfl (by omega)
    simp only [jointReadOk, Bool.and_eq_true, beq_iff_eq] at h0
    obtain ⟨e1, e2, e3⟩ := h0
    rw [readGo_succ_ok rm tp i fuel s e1 e2 e3]
    have hok' : ∀ k, i+1 ≤ k → k < i+1+fuel →
        jointReadOk rm tp (readJointUpd rm tp s i).axis_ k = true := by
      intro k h1 h2
      rw [readJointUpd_axis]
      exact hok k (by omega) (by omega)
    have IH := ih (i+1) (readJointUpd rm tp s i) hok'
    refine ⟨IH.1, ?_, ?_⟩
    · rw [IH.2.1, readJointUpd_axis]
      simp [readAddrsFrom]
    · intro k h1 h2
      by_cases hk : k = i
      · subst hk
        have hUT := readGo_untouched rm tp fuel (k+1) (readJointUpd rm tp s k) k (by omega)
        refine ⟨?_, ?_, ?_⟩
        · intro hlen
          rw [hUT.2.2, readJointUpd_eff_self rm tp s k hlen]
        · intro hlen
          rw [hUT.2.1, readJointUpd_vel_self rm tp s k hlen]
        · intro hlen
          rw [hUT.1, readJointUpd_pos_self rm tp s k hlen]
      · have h3 := IH.2.2 k (by omega) (by omega)
        refine ⟨?_, ?_, ?_⟩
        · intro hlen
          rw [h3.1 (by rw [readJointUpd_len_eff]; exact hlen)]
          simp [readStoredEffort, readJointUpd_axis, readJointUpd_KV]
        · intro hlen
          rw [(h3.2.1 (by rw [readJointUpd_len_vel]; exact hlen))]
          simp [readStoredVelocity, readJointUpd_axis]
        · intro hlen
          rw [(h3.2.2 (by rw [readJointUpd_len_pos]; exact hlen))]
          simp [readStoredPosition, readJointUpd_axis]

theorem readGo_fail (rm : RegMap) (tp : Transport) :
    ∀ (fuel i : ℕ) (s : HWState) (j p : ℕ),
      i ≤ j → j < i + fuel →
      (∀ k, i ≤ k → k < j → jointReadOk rm tp s.axis_ k = true) →
      jointReadFailAt rm tp s.axis_ j p = true →
      (readGo rm tp i fuel s).1 = .ERROR ∧
      (readGo rm tp i fuel s).2.2 =
        readAddrsFrom rm s.axis_ i (j - i) ++ (jointReadAddrs rm s.axis_ j).take (p+1) ∧
      (∀ k, i ≤ k → k < j →
        (k < s.hw_efforts_.length →
          (readGo rm tp i fuel s).2.1.hw_efforts_[k]? = some (readStoredEffort rm tp s k)) ∧
        (k < s.hw_velocities_.length →
          (readGo rm tp i fuel s).2.1.hw_velocities_[k]? = some (readStoredVelocity rm tp s k)) ∧
        (k < s.hw_positions_.length →
          (readGo rm tp i fuel s).2.1.hw_positions_[k]? = some (readStoredPosition rm tp s k))) ∧
      (∀ k, j < k →
        (readGo rm tp i fuel s).2.1.hw_positions_[k]? = s.hw_positions_[k]? ∧
        (readGo rm tp i fuel s).2.1.hw_velocities_[k]? = s.hw_velocities_[k]? ∧
        (readGo rm tp i fuel s).2.1.hw_efforts_[k]? = s.hw_efforts_[k]?) := by
  intro fuel
  induction fuel with
  | zero => intro i s j p h1 h2 _ _; omega
  | succ fuel ih =>
    intro i s j p hij hjf hb hf
    by_cases hii : i = j
    · subst hii
      rcases p with _ | _ | _ | pp
      · simp only [jointReadFailAt, Bool.not_eq_true', beq_eq_false_iff_ne, ne_eq] at hf
        rw [readGo_succ_fail0 rm tp i fuel s hf]
        refine ⟨rfl, ?_, by intro k hk1 hk2; omega, by intro k hk; exact ⟨rfl, rfl, rfl⟩⟩
        simp [readAddrsFrom, jointReadAddrs]
      · simp only [jointReadFailAt, Bool.and_eq_true, beq_iff_eq, Bool.not_eq_true',
          beq_eq_false_iff_ne, ne_eq] at hf
        rw [readGo_succ_fail1 rm tp i fuel s hf.1 hf.2]
        refine ⟨rfl, ?_, by intro k hk1 hk2; omega,
          by intro k hk; exact readJointUpdE_getElem_ne rm tp s i k (by omega)⟩
        simp [readAddrsFrom, jointReadAddrs]
      · simp only [jointReadFailAt, Bool.and_eq_true, beq_iff_eq, Bool.not_eq_true',
          beq_eq_false_iff_ne, ne_eq] at hf
        rw [readGo_succ_fail2 rm tp i fuel s hf.1 hf.2.1 hf.2.2]
        refine ⟨rfl, ?_, by intro k hk1 hk2; omega,
          by intro k hk; exact readJointUpdEV_getElem_ne rm tp s i k (by omega)⟩
        simp [readAddrsFrom, jointReadAddrs]
      · simp [jointReadFailAt] at hf
    · have hlt : i < j := by omega
      have h0 := hb i le_rfl hlt
      simp only [jointReadOk, Bool.and_eq_true, beq_iff_eq] at h0
      obtain ⟨e1, e2, e3⟩ := h0
      rw [readGo_succ_ok rm tp i fuel s e1 e2 e3]
      have hb' : ∀ k, i+1 ≤ k → k < j →
          jointReadOk rm tp (readJointUpd rm tp s i).axis_ k = true := by
        intro k hk1 hk2
        rw [readJointUpd_axis]
        exact hb k (by omega) hk2
      have hf' : jointReadFailAt rm tp (readJointUpd rm tp s i).axis_ j p = true := by
        rw [readJointUpd_axis]; exact hf
      have IH := ih (i+1) (readJointUpd rm tp s i) j p (by omega) (by omega) hb' hf'
      refine ⟨IH.1, ?_, ?_, ?_⟩
      · rw [IH.2.1, readJointUpd_axis]
        have hji : j - i = (j - (i+1)) + 1 := by omega
        rw [hji]
        simp [readAddrsFrom, List.cons_append]
      · intro k hk1 hk2
        by_cases hk : k = i
        · subst hk
          have hUT := readGo_untouched rm tp fuel (k+1) (readJointUpd rm tp s k) k (by omega)
          refine ⟨?_, ?_, ?_⟩
          · intro hlen
            rw [hUT.2.2, readJointUpd_eff_self rm tp s k hlen]
          · intro hlen
            rw [hUT.2.1, readJointUpd_vel_self rm tp s k hlen]
          · intro hlen
            rw [hUT.1, readJointUpd_pos_self rm tp s k hlen]
        · have h3 := IH.2.2.1 k (by omega) hk2
          refine ⟨?_, ?_, ?_⟩
          · intro hlen
            rw [h3.1 (by rw [readJointUpd_len_eff]; exact hlen)]
            simp [readStoredEffort, readJointUpd_axis, readJointUpd_KV]
          · intro hlen
            rw [h3.2.1 (by rw [readJointUpd_len_vel]; exact hlen)]
            simp [readStoredVelocity, readJointUpd_axis]
          · intro hlen
            rw [h3.2.2 (by rw [readJointUpd_len_pos]; exact hlen)]
            simp [readStoredPosition, readJointUpd_axis]
      · intro k hk
        have h4 := IH.2.2.2 k hk
        have h5 := readJointUpd_getElem_ne rm tp s i k (by omega)
        exact ⟨h4.1.trans h5.1, h4.2.1.trans h5.2.1, h4.2.2.trans h5.2.2⟩

theorem writeGo_succ_undefined (rm : RegMap) (tp : Transport) (s : HWState) (i fuel : ℕ)
    (h : s.control_level_.getD i .UNDEFINED = .UNDEFINED) :
    writeGo rm tp s i (fuel+1) = (.OK, []) := by
  rw [List.getD_eq_getElem?_getD] at h
  simp [writeGo, h]

theorem writeGo_succ_defined (rm : RegMap) (tp : Transport) (s : HWState) (i fuel : ℕ)
    (h : s.control_level_.getD i .UNDEFINED ≠ .UNDEFINED) :
    writeGo rm tp s i (fuel+1) =
      (if tp.twrite (jointWriteEv rm s i).addr (jointWriteEv rm s i).value ≠ 0
       then (.ERROR, [jointWriteEv rm s i])
       else ((writeGo rm tp s (i+1) fuel).1, jointWriteEv rm s i :: (writeGo rm tp s (i+1) fuel).2)) := by
  cases hm : s.control_level_.getD i .UNDEFINED with
  | UNDEFINED => exact absurd hm h
  | EFFORT =>
    rw [List.getD_eq_getElem?_getD] at hm
    simp [writeGo, jointWriteEv, hm]
  | VELOCITY =>
    rw [List.getD_eq_getElem?_getD] at hm
    simp [writeGo, jointWriteEv, hm]
  | POSITION =>
    rw [List.getD_eq_getElem?_getD] at hm
    simp [writeGo, jointWriteEv, hm]

theorem writeGo_until_undefined (rm : RegMap) (tp : Transport) (s : HWState) :
    ∀ (fuel i i₀ : ℕ), i ≤ i₀ → i₀ < i + fuel →
      s.control_level_.getD i₀ .UNDEFINED = .UNDEFINED →
      (∀ k, i ≤ k → k < i₀ → s.control_level_.getD k .UNDEFINED ≠ .UNDEFINED) →
      (∀ k, i ≤ k → k < i₀ →
        tp.twrite (jointWriteEv rm s k).addr (jointWriteEv rm s k).value = 0) →
      writeGo rm tp s i fuel = (.OK, expectedWritesFrom rm s i (i₀ - i)) := by
  intro fuel
  induction fuel with
  | zero => intro i i₀ h1 h2 _ _ _; omega
  | succ fuel ih =>
    intro i i₀ h1 h2 hu hdef hok
    by_cases hii : i = i₀
    · subst hii
      rw [writeGo_succ_undefined rm tp s i fuel hu]
      simp [expectedWritesFrom]
    · rw [writeGo_succ_defined rm tp s i fuel (hdef i le_rfl (by omega))]
      rw [if_neg (by simp [hok i le_rfl (by omega)])]
      rw [ih (i+1) i₀ (by omega) (by omega) hu
        (fun k hk1 hk2 => hdef k (by omega) hk2)
        (fun k hk1 hk2 => hok k (by omega) hk2)]
      have hc : i₀ - i = (i₀ - (i+1)) + 1 := by omega
      rw [hc]
      simp [expectedWritesFrom]

theorem writeGo_all_ok (rm : RegMap) (tp : Transport) (s : HWState) :
    ∀ (fuel i : ℕ),
      (∀ k, i ≤ k → k < i + fuel → s.control_level_.getD k .UNDEFINED ≠ .UNDEFINED) →
      (∀ k, i ≤ k → k < i + fuel →
        tp.twrite (jointWriteEv rm s k).addr (jointWriteEv rm s k).value = 0) →
      writeGo rm tp s i fuel = (.OK, expectedWritesFrom rm s i fuel) := by
  intro fuel
  induction fuel with
  | zero => intro i _ _; simp [writeGo, expectedWritesFrom]
  | succ fuel ih =>
    intro i hdef hok
    rw [writeGo_succ_defined rm tp s i fuel (hdef i le_rfl (by omega))]
    rw [if_neg (by simp [hok i le_rfl (by omega)])]
    rw [ih (i+1) (fun k hk1 hk2 => hdef k (by omega) (by omega))
      (fun k hk1 hk2 => hok k (by omega) (by omega))]
    simp [expectedWritesFrom]

theorem writeGo_first_fail (rm : RegMap) (tp : Transport) (s : HWState) :
    ∀ (fuel i j : ℕ), i ≤ j → j < i + fuel →
      (∀ k, i ≤ k → k ≤ j → s.control_level_.getD k .UNDEFINED ≠ .UNDEFINED) →
      (∀ k, i ≤ k → k < j →
        tp.twrite (jointWriteEv rm s k).addr (jointWriteEv rm s k).value = 0) →
      tp.twrite (jointWriteEv rm s j).addr (jointWriteEv rm s j).value ≠ 0 →
      writeGo rm tp s i fuel =
        (.ERROR, expectedWritesFrom rm s i (j - i) ++ [jointWriteEv rm s j]) := by
  intro fuel
  induction fuel with
  | zero => intro i j h1 h2 _ _ _; omega
  | succ fuel ih =>
    intro i j h1 h2 hdef hok hfail
    by_cases hii : i = j
    · subst hii
      rw [writeGo_succ_defined rm tp s i fuel (hdef i le_rfl le_rfl)]
      rw [if_pos hfail]
      simp [expectedWritesFrom]
    · rw [writeGo_succ_defined rm tp s i fuel (hdef i le_rfl (by omega))]
      rw [if_neg (by simp [hok i le_rfl (by omega)])]
      rw [ih (i+1) j (by omega) (by omega)
        (fun k hk1 hk2 => hdef k (by omega) hk2)
        (fun k hk1 hk2 => hok k (by omega) hk2) hfail]
      have hc : j - i = (j - (i+1)) + 1 := by omega
      rw [hc]
      simp [expectedWritesFrom]

theorem axisStateGo_all_ok (rm : RegMap) (tp : Transport) (axisL : List ℤ) (v : ℚ) :
    ∀ (fuel i : ℕ),
      (∀ k, i ≤ k → k < i + fuel → tp.twrite (requestedStateAddr rm axisL k) v = 0) →
      axisStateGo rm tp axisL v i fuel = (.OK, reqWritesFrom rm axisL v i fuel) := by
  intro fuel
  induction fuel with
  | zero => intro i _; simp [axisStateGo, reqWritesFrom]
  | succ fuel ih =>
    intro i hok
    simp only [axisStateGo]
    rw [if_neg (by simp [hok i le_rfl (by omega)])]
    rw [ih (i+1) (fun k hk1 hk2 => hok k (by omega) (by omega))]
    simp [reqWritesFrom]

theorem axisStateGo_first_fail (rm : RegMap) (tp : Transport) (axisL : List ℤ) (v : ℚ) :
    ∀ (fuel i j : ℕ), i ≤ j → j < i + fuel →
      (∀ k, i ≤ k → k < j → tp.twrite (requestedStateAddr rm axisL k) v = 0) →
      tp.twrite (requestedStateAddr rm axisL j) v ≠ 0 →
      axisStateGo rm tp axisL v i fuel =
        (.ERROR, reqWritesFrom rm axisL v i (j - i) ++ [⟨requestedStateAddr rm axisL j, v⟩]) := by
  intro fuel
  induction fuel with
  | zero => intro i j h1 h2 _ _; omega
  | succ fuel ih =>
    intro i j h1 h2 hok hfail
    by_cases hii : i = j
    · subst hii
      simp only [axisStateGo]
      rw [if_pos hfail]
      simp [reqWritesFrom]
    · simp only [axisStateGo]
      rw [if_neg (by simp [hok i le_rfl (by omega)])]
      rw [ih (i+1) j (by omega) (by omega) (fun k hk1 hk2 => hok k (by omega) hk2) hfail]
      have hc : j - i = (j - (i+1)) + 1 := by omega
      rw [hc]
      simp [reqWritesFrom]

theorem writeGo_agree (rm : RegMap) (tp : Transport) :
    ∀ (fuel i : ℕ) (s1 s2 : HWState),
      s1.axis_ = s2.axis_ → s1.KV_ = s2.KV_ → s1.control_level_ = s2.control_level_ →
      (∀ k, i ≤ k → k < i + fuel → cmdAgree s1 s2 k = true) →
      writeGo rm tp s1 i fuel = writeGo rm tp s2 i fuel := by
  intro fuel
  induction fuel with
  | zero => intro i s1 s2 _ _ _ _; simp [writeGo]
  | succ fuel ih =>
    intro i s1 s2 hax hkv hcl hagree
    have hag := hagree i le_rfl (by omega)
    have hm2 : s2.control_level_.getD i .UNDEFINED = s1.control_level_.getD i .UNDEFINED := by
      rw [hcl]
    cases hm : s1.control_level_.getD i .UNDEFINED with
    | UNDEFINED =>
      rw [writeGo_succ_undefined rm tp s1 i fuel hm,
        writeGo_succ_undefined rm tp s2 i fuel (hm2.trans hm)]
    | EFFORT =>
      have hm2' : s2.control_level_.getD i .UNDEFINED = .EFFORT := hm2.trans hm
      have hagE : s1.hw_commands_efforts_.getD i 0 = s2.hw_commands_efforts_.getD i 0 := by
        unfold cmdAgree at hag
        rw [hm] at hag
        exact beq_iff_eq.mp hag
      have hev : jointWriteEv rm s1 i = jointWriteEv rm s2 i := by
        unfold jointWriteEv
        rw [hm, hm2', hax, hkv, hagE]
      rw [writeGo_succ_defined rm tp s1 i fuel (by rw [hm]; simp),
        writeGo_succ_defined rm tp s2 i fuel (by rw [hm2']; simp),
        hev, ih (i+1) s1 s2 hax hkv hcl (fun k h1 h2 => hagree k (by omega) (by omega))]
    | VELOCITY =>
      have hm2' : s2.control_level_.getD i .UNDEFINED = .VELOCITY := hm2.trans hm
      have hagV : s1.hw_commands_velocities_.getD i 0 = s2.hw_commands_velocities_.getD i 0 := by
        unfold cmdAgree at hag
        rw [hm] at hag
        exact beq_iff_eq.mp hag
      have hev : jointWriteEv rm s1 i = jointWriteEv rm s2 i := by
        unfold jointWriteEv
        rw [hm, hm2', hax, hagV]
      rw [writeGo_succ_defined rm tp s1 i fuel (by rw [hm]; simp),
        writeGo_succ_defined rm tp s2 i fuel (by rw [hm2']; simp),
        hev, ih (i+1) s1 s2 hax hkv hcl (fun k h1 h2 => hagree k (by omega) (by omega))]
    | POSITION =>
      have hm2' : s2.control_level_.getD i .UNDEFINED = .POSITION := hm2.trans hm
      have hagP : s1.hw_commands_positions_.getD i 0 = s2.hw_commands_positions_.getD i 0 := by
        unfold cmdAgree at hag
        rw [hm] at hag
        exact beq_iff_eq.mp hag
      have hev : jointWriteEv rm s1 i = jointWriteEv rm s2 i := by
        unfold jointWriteEv
        rw [hm, hm2', hax, hagP]
      rw [writeGo_succ_defined rm tp s1 i fuel (by rw [hm]; simp),
        writeGo_succ_defined rm tp s2 i fuel (by rw [hm2']; simp),
        hev, ih (i+1) s1 s2 hax hkv hcl (fun k h1 h2 => hagree k (by omega) (by omega))]

theorem start_state_lists (rm : RegMap) (tp : Transport) (s : HWState) :
    (ODriveHardwareInterface.start rm tp s).2.1.njoints = s.njoints ∧
    (ODriveHardwareInterface.start rm tp s).2.1.axis_ = s.axis_ ∧
    (ODriveHardwareInterface.start rm tp s).2.1.KV_ = s.KV_ ∧
    (ODriveHardwareInterface.start rm tp s).2.1.hw_commands_positions_ = s.hw_commands_positions_ ∧
    (ODriveHardwareInterface.start rm tp s).2.1.hw_commands_velocities_ = s.hw_commands_velocities_ ∧
    (ODriveHardwareInterface.start rm tp s).2.1.hw_commands_efforts_ = s.hw_commands_efforts_ ∧
    (ODriveHardwareInterface.start rm tp s).2.1.hw_positions_ = s.hw_positions_ ∧
    (ODriveHardwareInterface.start rm tp s).2.1.hw_velocities_ = s.hw_velocities_ ∧
    (ODriveHardwareInterface.start rm tp s).2.1.hw_efforts_ = s.hw_efforts_ ∧
    (ODriveHardwareInterface.start rm tp s).2.1.control_level_ = s.control_level_ := by
  simp only [ODriveHardwareInterface.start]
  split <;> simp_all

theorem stop_state_lists (rm : RegMap) (tp : Transport) (s : HWState) :
    (ODriveHardwareInterface.stop rm tp s).2.1.njoints = s.njoints ∧
    (ODriveHardwareInterface.stop rm tp s).2.1.axis_ = s.axis_ ∧
    (ODriveHardwareInterface.stop rm tp s).2.1.KV_ = s.KV_ ∧
    (ODriveHardwareInterface.stop rm tp s).2.1.hw_commands_positions_ = s.hw_commands_positions_ ∧
    (ODriveHardwareInterface.stop rm tp s).2.1.hw_commands_velocities_ = s.hw_commands_velocities_ ∧
    (ODriveHardwareInterface.stop rm tp s).2.1.hw_commands_efforts_ = s.hw_commands_efforts_ ∧
    (ODriveHardwareInterface.stop rm tp s).2.1.hw_positions_ = s.hw_positions_ ∧
    (ODriveHardwareInterface.stop rm tp s).2.1.hw_velocities_ = s.hw_velocities_ ∧
    (ODriveHardwareInterface.stop rm tp s).2.1.hw_efforts_ = s.hw_efforts_ ∧
    (ODriveHardwareInterface.stop rm tp s).2.1.control_level_ = s.control_level_ := by
  simp only [ODriveHardwareInterface.stop]
  split <;> simp_all

theorem parseJointParams_some_inv (j : ComponentInfo) (a kv : ℤ)
    (h : parseJointParams j = some (a, kv)) :
    ∃ sa sk, lookupParam j.parameters "axis" = some sa ∧ stoi sa = .ok a ∧
      lookupParam j.parameters "KV" = some sk ∧ stoi sk = .ok kv := by
  unfold parseJointParams at h
  cases hla : lookupParam j.parameters "axis" with
  | none => simp only [hla] at h; simp at h
  | some sa =>
    simp only [hla] at h
    cases hsa : stoi sa with
    | error e => simp only [hsa] at h; simp at h
    | ok a' =>
      simp only [hsa] at h
      cases hlk : lookupParam j.parameters "KV" with
      | none => simp only [hlk] at h; simp at h
      | some sk =>
        simp only [hlk] at h
        cases hsk : stoi sk with
        | error e => simp only [hsk] at h; simp at h
        | ok kv' =>
          simp only [hsk] at h
          simp only [Option.some_inj, Prod.mk.injEq] at h
          obtain ⟨ha, hkv⟩ := h
          subst ha
          subst hkv
          exact ⟨sa, sk, rfl, hsa, rfl, hsk⟩

theorem configureLoop_cons_err (j : ComponentInfo) (rest : List ComponentInfo) (s : HWState)
    (h1 : interfacesOk j = false) :
    configureLoop (j :: rest) s = (some .err, s) := by
  simp [configureLoop, h1]

theorem configureLoop_cons_pass (j : ComponentInfo) (rest : List ComponentInfo) (s : HWState)
    (h1 : interfacesOk j = true) (a kv : ℤ) (h2 : parseJointParams j = some (a, kv)) :
    configureLoop (j :: rest) s =
      configureLoop rest { s with axis_ := s.axis_ ++ [a], KV_ := s.KV_ ++ [kv] } := by
  obtain ⟨sa, sk, hla, hsa, hlk, hsk⟩ := parseJointParams_some_inv j a kv h2
  simp [configureLoop, h1, hla, hsa, hlk, hsk]

theorem configureLoop_cons_exn (j : ComponentInfo) (rest : List ComponentInfo) (s : HWState)
    (h1 : interfacesOk j = true) (h2 : parseJointParams j = none) :
    ∃ e s', configureLoop (j :: rest) s = (some (.exn e), s') := by
  unfold parseJointParams at h2
  cases hla : lookupParam j.parameters "axis" with
  | none => exact ⟨.out_of_range, s, by simp [configureLoop, h1, hla]⟩
  | some sa =>
    simp only [hla] at h2
    cases hsa : stoi sa with
    | error e => exact ⟨e, s, by simp [configureLoop, h1, hla, hsa]⟩
    | ok a =>
      simp only [hsa] at h2
      cases hlk : lookupParam j.parameters "KV" with
      | none =>
        exact ⟨.out_of_range, { s with axis_ := s.axis_ ++ [a] },
          by simp [configureLoop, h1, hla, hsa, hlk]⟩
      | some sk =>
        simp only [hlk] at h2
        cases hsk : stoi sk with
        | error e =>
          exact ⟨e, { s with axis_ := s.axis_ ++ [a] },
            by simp [configureLoop, h1, hla, hsa, hlk, hsk]⟩
        | ok kv => simp only [hsk] at h2; simp at h2

theorem configureLoop_all_pass :
    ∀ (js : List ComponentInfo) (s : HWState),
      (∀ j ∈ js, interfacesOk j = true ∧ (parseJointParams j).isSome = true) →
      configureLoop js s =
        (none, { s with
          axis_ := s.axis_ ++ js.map axisOf
          KV_ := s.KV_ ++ js.map kvOf }) := by
  intro js
  induction js with
  | nil => intro s _; simp [configureLoop]
  | cons j rest ih =>
    intro s hall
    obtain ⟨h1, h2⟩ := hall j (by simp)
    obtain ⟨⟨a, kv⟩, hpar⟩ := Option.isSome_iff_exists.mp h2
    rw [configureLoop_cons_pass j rest s h1 a kv hpar]
    rw [ih _ (fun x hx => hall x (by simp [hx]))]
    have ha : axisOf j = a := by simp [axisOf, hpar]
    have hk : kvOf j = kv := by simp [kvOf, hpar]
    simp [ha, hk]

theorem configureLoop_err_at :
    ∀ (js : List ComponentInfo) (k : ℕ) (s : HWState),
      k < js.length →
      (∀ m, m < k → interfacesOk (js.getD m emptyJoint) = true ∧
        (parseJointParams (js.getD m emptyJoint)).isSome = true) →
      interfacesOk (js.getD k emptyJoint) = false →
      configureLoop js s =
        (some .err, { s with
          axis_ := s.axis_ ++ (js.take k).map axisOf
          KV_ := s.KV_ ++ (js.take k).map kvOf }) := by
  intro js
  induction js with
  | nil => intro k s hk _ _; simp at hk
  | cons j rest ih =>
    intro k s hk hbef hbad
    cases k with
    | zero =>
      rw [configureLoop_cons_err j rest s (by simpa using hbad)]
      simp
    | succ k' =>
      obtain ⟨h1, h2⟩ := hbef 0 (by omega)
      simp only [List.getD_cons_zero] at h1 h2
      obtain ⟨⟨a, kv⟩, hpar⟩ := Option.isSome_iff_exists.mp h2
      rw [configureLoop_cons_pass j rest s h1 a kv hpar]
      rw [ih k' _ (by simpa using hk)
        (fun m hm => by simpa using hbef (m+1) (by omega))
        (by simpa using hbad)]
      have ha : axisOf j = a := by simp [axisOf, hpar]
      have hk2 : kvOf j = kv := by simp [kvOf, hpar]
      simp [ha, hk2]

theorem configureLoop_none_inv :
    ∀ (js : List ComponentInfo) (s s' : HWState), configureLoop js s = (none, s') →
      s'.njoints = s.njoints ∧
      s'.hw_commands_positions_ = s.hw_commands_positions_ ∧
      s'.hw_commands_velocities_ = s.hw_commands_velocities_ ∧
      s'.hw_commands_efforts_ = s.hw_commands_efforts_ ∧
      s'.hw_positions_ = s.hw_positions_ ∧
      s'.hw_velocities_ = s.hw_velocities_ ∧
      s'.hw_efforts_ = s.hw_efforts_ ∧
      s'.control_level_ = s.control_level_ ∧
      s'.axis_requested_state_ = s.axis_requested_state_ ∧
      s'.status_ = s.status_ ∧
      s'.axis_.length = s.axis_.length + js.length ∧
      s'.KV_.length = s.KV_.length + js.length := by
  intro js
  induction js with
  | nil =>
    intro s s' h
    simp only [configureLoop, Prod.mk.injEq] at h
    obtain ⟨_, h2⟩ := h
    subst h2
    simp
  | cons j rest ih =>
    intro s s' h
    simp only [configureLoop] at h
    split at h
    · simp at h
    · split at h
      · simp at h
      · split at h
        · simp at h
        · split at h
          · simp at h
          · split at h
            · simp at h
            · obtain ⟨q1, q2, q3, q4, q5, q6, q7, q8, q9, q10, q11, q12⟩ := ih _ _ h
              refine ⟨q1, q2, q3, q4, q5, q6, q7, q8, q9, q10, ?_, ?_⟩
              · rw [q11]
                simp [List.length_append]
                try omega
              · rw [q12]
                simp [List.length_append]
                try omega

theorem configureLoop_exn_at :
    ∀ (js : List ComponentInfo) (k : ℕ) (s : HWState),
      k < js.length →
      (∀ m, m < k → interfacesOk (js.getD m emptyJoint) = true ∧
        (parseJointParams (js.getD m emptyJoint)).isSome = true) →
      interfacesOk (js.getD k emptyJoint) = true →
      parseJointParams (js.getD k emptyJoint) = none →
      ∃ e s', configureLoop js s = (some (.exn e), s') := by
  intro js
  induction js with
  | nil => intro k s hk _ _ _; simp at hk
  | cons j rest ih =>
    intro k s hk hbef hik hpar
    cases k with
    | zero =>
      simp only [List.getD_cons_zero] at hik hpar
      exact configureLoop_cons_exn j rest s hik hpar
    | succ k' =>
      obtain ⟨h1, h2⟩ := hbef 0 (by omega)
      simp only [List.getD_cons_zero] at h1 h2
      obtain ⟨⟨a, kv⟩, hparh⟩ := Option.isSome_iff_exists.mp h2
      rw [configureLoop_cons_pass j rest s h1 a kv hparh]
      exact ih k' _ (by simpa using hk)
        (fun m hm => by simpa using hbef (m+1) (by omega))
        (by simpa using hik) (by simpa using hpar)

theorem buflens_applyOp (c : OpCall) (s : HWState) (n : ℕ) (h : BufLens s n) :
    BufLens (applyOp c s) n := by
  obtain ⟨h1, h2, h3, h4, h5, h6, h7, h8, h9⟩ := h
  rcases c with ⟨rm, tp, op⟩
  cases op with
  | opWrite => exact ⟨h1, h2, h3, h4, h5, h6, h7, h8, h9⟩
  | opRead =>
    have hf := readGo_frame rm tp s.njoints 0 s
    obtain ⟨f1, f2, f3, f4, f5, f6, f7, f8, f9, f10, f11, f12⟩ := hf
    exact ⟨by simpa [applyOp, ODriveHardwareInterface.read] using f10.trans h1,
      by simpa [applyOp, ODriveHardwareInterface.read] using f11.trans h2,
      by simpa [applyOp, ODriveHardwareInterface.read] using f12.trans h3,
      by simpa [applyOp, ODriveHardwareInterface.read] using f4 ▸ h4,
      by simpa [applyOp, ODriveHardwareInterface.read] using f5 ▸ h5,
      by simpa [applyOp, ODriveHardwareInterface.read] using f6 ▸ h6,
      by simpa [applyOp, ODriveHardwareInterface.read] using f7 ▸ h7,
      by simpa [applyOp, ODriveHardwareInterface.read] using f2 ▸ h8,
      by simpa [applyOp, ODriveHardwareInterface.read] using f3 ▸ h9⟩
  | opStart =>
    obtain ⟨g1, g2, g3, g4, g5, g6, g7, g8, g9, g10⟩ := start_state_lists rm tp s
    exact ⟨by simpa [applyOp] using g7 ▸ h1, by simpa [applyOp] using g8 ▸ h2,
      by simpa [applyOp] using g9 ▸ h3, by simpa [applyOp] using g4 ▸ h4,
      by simpa [applyOp] using g5 ▸ h5, by simpa [applyOp] using g6 ▸ h6,
      by simpa [applyOp] using g10 ▸ h7, by simpa [applyOp] using g2 ▸ h8,
      by simpa [applyOp] using g3 ▸ h9⟩
  | opStop =>
    obtain ⟨g1, g2, g3, g4, g5, g6, g7, g8, g9, g10⟩ := stop_state_lists rm tp s
    exact ⟨by simpa [applyOp] using g7 ▸ h1, by simpa [applyOp] using g8 ▸ h2,
      by simpa [applyOp] using g9 ▸ h3, by simpa [applyOp] using g4 ▸ h4,
      by simpa [applyOp] using g5 ▸ h5, by simpa [applyOp] using g6 ▸ h6,
      by simpa [applyOp] using g10 ▸ h7, by simpa [applyOp] using g2 ▸ h8,
      by simpa [applyOp] using g3 ▸ h9⟩

theorem buflens_applyOps :
    ∀ (cs : List OpCall) (s : HWState) (n : ℕ), BufLens s n → BufLens (applyOps cs s) n := by
  intro cs
  induction cs with
  | nil => intro s n h; simpa [applyOps] using h
  | cons c rest ih =>
    intro s n h
    simpa [applyOps] using ih (applyOp c s) n (buflens_applyOp c s n h)

/-! ### Claim theorems -/

/-- C6 counterexample: the effort round-trip does not hold for every KV —
at KV = 0 (and commanded effort 1) the write-path conversion followed by
the read-path conversion returns 0, not 1. -/
theorem C6_counterexample : ¬ (effortFromIq (iqFromEffort 1 0) 0 = 1) := by
  norm_num [effortFromIq, iqFromEffort]

/-- C6 (amended): the velocity conversions compose to the identity for
every velocity, and the effort conversions compose to the identity for
every effort and every nonzero KV (e.g. KV = 100). -/
theorem C6_theorem :
    (∀ v : ℚ, velocityFromTurns (turnsFromVelocity v) = v) ∧
    (∀ (E : ℚ) (kv : ℤ), kv ≠ 0 → effortFromIq (iqFromEffort E kv) kv = E) := by
  constructor
  · intro v
    have hpi : M_PI ≠ 0 := by norm_num [M_PI]
    unfold velocityFromTurns turnsFromVelocity
    field_simp
    ring
  · intro E kv hkv
    have hk : (kv : ℚ) ≠ 0 := Int.cast_ne_zero.mpr hkv
    unfold effortFromIq iqFromEffort
    field_simp

/-- C6 witness: the round-trips at v = 3, E = 5, KV = 100. -/
theorem C6_witness :
    velocityFromTurns (turnsFromVelocity 3) = 3 ∧
    ((100 : ℤ) ≠ 0 ∧ effortFromIq (iqFromEffort 5 100) 100 = 5) :=
  ⟨C6_theorem.1 3, by decide, C6_theorem.2 5 100 (by decide)⟩

/-- C1: if joint `i` is the first joint with `ControlMode` `UNDEFINED`
(joints before it defined and their single writes accepted), then `write()`
returns `OK` at joint `i` and the issued writes are exactly the per-joint
writes of the joints before `i` — none for joint `i` or any later joint. -/
theorem C1_theorem (rm : RegMap) (tp : Transport) (s : HWState) (i : ℕ)
    (hlt : i < s.njoints)
    (hu : s.control_level_.getD i .UNDEFINED = .UNDEFINED)
    (hdef : ∀ k, k < i → s.control_level_.getD k .UNDEFINED ≠ .UNDEFINED)
    (hok : ∀ k, k < i →
      tp.twrite (jointWriteEv rm s k).addr (jointWriteEv rm s k).value = 0) :
    ODriveHardwareInterface.write rm tp s = (.OK, expectedWritesFrom rm s 0 i) := by
  unfold ODriveHardwareInterface.write
  have H := writeGo_until_undefined rm tp s s.njoints 0 i (by omega) (by omega) hu
    (fun k _ hk2 => hdef k hk2) (fun k _ hk2 => hok k hk2)
  simpa using H

/-- C1 witness: two joints, the second `UNDEFINED`; `write()` returns `OK`
with exactly the first joint's write issued. -/
theorem C1_witness :
    1 < sWU.njoints ∧
    sWU.control_level_.getD 1 .UNDEFINED = .UNDEFINED ∧
    (∀ k, k < 1 → sWU.control_level_.getD k .UNDEFINED ≠ .UNDEFINED) ∧
    (∀ k, k < 1 →
      tpW.twrite (jointWriteEv rmW sWU k).addr (jointWriteEv rmW sWU k).value = 0) ∧
    ODriveHardwareInterface.write rmW tpW sWU = (.OK, expectedWritesFrom rmW sWU 0 1) :=
  ⟨by decide, by decide, by decide, by decide,
    C1_theorem rmW tpW sWU 1 (by decide) (by decide) (by decide) (by decide)⟩

/-- C4: when every joint's control level is defined, `write()` issues
exactly one register write per joint — `jointWriteEv` records the
mode-dispatched value (`effort / 8.27 * KV`, `velocity / 2 / M_PI`,
`position / 2 / M_PI`) and register for each — and returns `OK` when the
transport accepts them all, while the first rejected write aborts the call
with `ERROR`, the later joints' writes never being issued. -/
theorem C4_theorem (rm : RegMap) (tp : Transport) (s : HWState)
    (hdef : ∀ k, k < s.njoints → s.control_level_.getD k .UNDEFINED ≠ .UNDEFINED) :
    ((∀ k, k < s.njoints →
        tp.twrite (jointWriteEv rm s k).addr (jointWriteEv rm s k).value = 0) →
      ODriveHardwareInterface.write rm tp s = (.OK, expectedWritesFrom rm s 0 s.njoints)) ∧
    (∀ j, j < s.njoints →
      (∀ k, k < j → tp.twrite (jointWriteEv rm s k).addr (jointWriteEv rm s k).value = 0) →
      tp.twrite (jointWriteEv rm s j).addr (jointWriteEv rm s j).value ≠ 0 →
      ODriveHardwareInterface.write rm tp s =
        (.ERROR, expectedWritesFrom rm s 0 j ++ [jointWriteEv rm s j])) := by
  constructor
  · intro hok
    unfold ODriveHardwareInterface.write
    exact writeGo_all_ok rm tp s s.njoints 0
      (fun k _ h2 => hdef k (by omega)) (fun k _ h2 => hok k (by omega))
  · intro j hj hok hfail
    unfold ODriveHardwareInterface.write
    have H := writeGo_first_fail rm tp s s.njoints 0 j (by omega) (by omega)
      (fun k _ h2 => hdef k (by omega)) (fun k _ h2 => hok k h2) hfail
    simpa using H

/-- C4 witness: three joints in VELOCITY/EFFORT/POSITION modes; with an
all-accepting transport, `write()` returns `OK` with one write per joint;
with a transport rejecting the second joint's current-setpoint register,
`write()` returns `ERROR` after issuing only the first two writes. -/
theorem C4_witness :
    (∀ k, k < sW3.njoints → sW3.control_level_.getD k .UNDEFINED ≠ .UNDEFINED) ∧
    ODriveHardwareInterface.write rmW tpW sW3 =
      (.OK, expectedWritesFrom rmW sW3 0 sW3.njoints) ∧
    (1 < sW3.njoints ∧
      (∀ k, k < 1 → tpWriteFail410.twrite (jointWriteEv rmW sW3 k).addr
        (jointWriteEv rmW sW3 k).value = 0) ∧
      tpWriteFail410.twrite (jointWriteEv rmW sW3 1).addr (jointWriteEv rmW sW3 1).value ≠ 0 ∧
      ODriveHardwareInterface.write rmW tpWriteFail410 sW3 =
        (.ERROR, expectedWritesFrom rmW sW3 0 1 ++ [jointWriteEv rmW sW3 1])) :=
  ⟨by decide, (C4_theorem rmW tpW sW3 (by decide)).1 (by decide),
    by decide, by decide, by decide,
    (C4_theorem rmW tpWriteFail410 sW3 (by decide)).2 1 (by decide) (by decide) (by decide)⟩

/-- C9: `write()` reads only the command buffer selected by each joint's
control level: two member states agreeing on joint count, axes, KV,
control levels and on every consulted command entry produce identical
results and identical write traces, whatever the other entries hold. -/
theorem C9_theorem (rm : RegMap) (tp : Transport) (s1 s2 : HWState)
    (hn : s1.njoints = s2.njoints)
    (hax : s1.axis_ = s2.axis_) (hkv : s1.KV_ = s2.KV_)
    (hcl : s1.control_level_ = s2.control_level_)
    (hagree : ∀ i, i < s1.njoints → cmdAgree s1 s2 i = true) :
    ODriveHardwareInterface.write rm tp s1 = ODriveHardwareInterface.write rm tp s2 := by
  unfold ODriveHardwareInterface.write
  rw [← hn]
  exact writeGo_agree rm tp s1.njoints 0 s1 s2 hax hkv hcl (fun k _ h2 => hagree k (by omega))

/-- C9 witness: `sW3'` differs from `sW3` exactly in the command entries no
joint's mode consults; the two `write()` runs coincide. -/
theorem C9_witness :
    sW3.njoints = sW3'.njoints ∧ sW3.axis_ = sW3'.axis_ ∧ sW3.KV_ = sW3'.KV_ ∧
    sW3.control_level_ = sW3'.control_level_ ∧
    (∀ i, i < sW3.njoints → cmdAgree sW3 sW3' i = true) ∧
    ODriveHardwareInterface.write rmW tpW sW3 = ODriveHardwareInterface.write rmW tpW sW3' :=
  ⟨by decide, by decide, by decide, by decide, by decide,
    C9_theorem rmW tpW sW3 sW3' (by decide) (by decide) (by decide) (by decide) (by decide)⟩

/-- C7: `start()` issues exactly one requested-state write per configured
joint, each with value `AXIS_STATE_CLOSED_LOOP_CONTROL` (8) at
`AXIS__REQUESTED_STATE + per_axis_offset * axis_[i]`, and `stop()` does the
same with `AXIS_STATE_IDLE` (1); both return `OK` when the transport
accepts every write, and the first rejected write aborts the call with
`ERROR`, the writes already issued staying in the trace with nothing
issued after them (no rollback). -/
theorem C7_theorem (rm : RegMap) (tp : Transport) (s : HWState) :
    ((∀ k, k < s.njoints →
        tp.twrite (requestedStateAddr rm s.axis_ k) (AXIS_STATE_CLOSED_LOOP_CONTROL : ℚ) = 0) →
      ODriveHardwareInterface.start rm tp s =
        (.OK, { s with
            axis_requested_state_ := AXIS_STATE_CLOSED_LOOP_CONTROL
            status_ := .STARTED },
          reqWritesFrom rm s.axis_ (AXIS_STATE_CLOSED_LOOP_CONTROL : ℚ) 0 s.njoints)) ∧
    ((∀ k, k < s.njoints →
        tp.twrite (requestedStateAddr rm s.axis_ k) (AXIS_STATE_IDLE : ℚ) = 0) →
      ODriveHardwareInterface.stop rm tp s =
        (.OK, { s with
            axis_requested_state_ := AXIS_STATE_IDLE
            status_ := .STOPPED },
          reqWritesFrom rm s.axis_ (AXIS_STATE_IDLE : ℚ) 0 s.njoints)) ∧
    (∀ j, j < s.njoints →
      (∀ k, k < j →
        tp.twrite (requestedStateAddr rm s.axis_ k) (AXIS_STATE_CLOSED_LOOP_CONTROL : ℚ) = 0) →
      tp.twrite (requestedStateAddr rm s.axis_ j) (AXIS_STATE_CLOSED_LOOP_CONTROL : ℚ) ≠ 0 →
      ODriveHardwareInterface.start rm tp s =
        (.ERROR, { s with axis_requested_state_ := AXIS_STATE_CLOSED_LOOP_CONTROL },
          reqWritesFrom rm s.axis_ (AXIS_STATE_CLOSED_LOOP_CONTROL : ℚ) 0 j ++
            [⟨requestedStateAddr rm s.axis_ j, (AXIS_STATE_CLOSED_LOOP_CONTROL : ℚ)⟩])) ∧
    (∀ j, j < s.njoints →
      (∀ k, k < j → tp.twrite (requestedStateAddr rm s.axis_ k) (AXIS_STATE_IDLE : ℚ) = 0) →
      tp.twrite (requestedStateAddr rm s.axis_ j) (AXIS_STATE_IDLE : ℚ) ≠ 0 →
      ODriveHardwareInterface.stop rm tp s =
        (.ERROR, { s with axis_requested_state_ := AXIS_STATE_IDLE },
          reqWritesFrom rm s.axis_ (AXIS_STATE_IDLE : ℚ) 0 j ++
            [⟨requestedStateAddr rm s.axis_ j, (AXIS_STATE_IDLE : ℚ)⟩])) := by
  refine ⟨?_, ?_, ?_, ?_⟩
  · intro hok
    simp only [ODriveHardwareInterface.start]
    rw [axisStateGo_all_ok rm tp s.axis_ _ s.njoints 0 (fun k _ h2 => hok k (by omega))]
  · intro hok
    simp only [ODriveHardwareInterface.stop]
    rw [axisStateGo_all_ok rm tp s.axis_ _ s.njoints 0 (fun k _ h2 => hok k (by omega))]
  · intro j hj hok hfail
    simp only [ODriveHardwareInterface.start]
    rw [axisStateGo_first_fail rm tp s.axis_ _ s.njoints 0 j (by omega) (by omega)
      (fun k _ h2 => hok k h2) hfail]
    simp
  · intro j hj hok hfail
    simp only [ODriveHardwareInterface.stop]
    rw [axisStateGo_first_fail rm tp s.axis_ _ s.njoints 0 j (by omega) (by omega)
      (fun k _ h2 => hok k h2) hfail]
    simp

/-- C7 witness: with 2 joints, `start()` issues exactly 2 requested-state
writes of 8 and `stop()` exactly 2 of 1; with the write to axis 1's
register rejected, `start()` aborts after the two issued writes. -/
theorem C7_witness :
    (∀ k, k < sW.njoints →
      tpW.twrite (requestedStateAddr rmW sW.axis_ k) (AXIS_STATE_CLOSED_LOOP_CONTROL : ℚ) = 0) ∧
    ODriveHardwareInterface.start rmW tpW sW =
      (.OK, { sW with
          axis_requested_state_ := AXIS_STATE_CLOSED_LOOP_CONTROL
          status_ := .STARTED },
        reqWritesFrom rmW sW.axis_ (AXIS_STATE_CLOSED_LOOP_CONTROL : ℚ) 0 sW.njoints) ∧
    ODriveHardwareInterface.stop rmW tpW sW =
      (.OK, { sW with
          axis_requested_state_ := AXIS_STATE_IDLE
          status_ := .STOPPED },
        reqWritesFrom rmW sW.axis_ (AXIS_STATE_IDLE : ℚ) 0 sW.njoints) ∧
    (1 < sW.njoints ∧
      (∀ k, k < 1 → tpWriteFail1010.twrite (requestedStateAddr rmW sW.axis_ k)
        (AXIS_STATE_CLOSED_LOOP_CONTROL : ℚ) = 0) ∧
      tpWriteFail1010.twrite (requestedStateAddr rmW sW.axis_ 1)
        (AXIS_STATE_CLOSED_LOOP_CONTROL : ℚ) ≠ 0 ∧
      ODriveHardwareInterface.start rmW tpWriteFail1010 sW =
        (.ERROR, { sW with axis_requested_state_ := AXIS_STATE_CLOSED_LOOP_CONTROL },
          reqWritesFrom rmW sW.axis_ (AXIS_STATE_CLOSED_LOOP_CONTROL : ℚ) 0 1 ++
            [⟨requestedStateAddr rmW sW.axis_ 1, (AXIS_STATE_CLOSED_LOOP_CONTROL : ℚ)⟩])) :=
  ⟨by decide, (C7_theorem rmW tpW sW).1 (by decide),
    (C7_theorem rmW tpW sW).2.1 (by decide),
    by decide, by decide, by decide,
    (C7_theorem rmW tpWriteFail1010 sW).2.2.1 1 (by decide) (by decide) (by decide)⟩

/-- C3: under an all-accepting transport, `read()` returns `OK`, its
transport reads are exactly, per joint in order, the measured-current,
velocity-estimate and position-estimate registers of that joint's axis,
and each joint's buffers end up holding the converted values
(`Iq * 8.27 / KV`, `vel * 2 * M_PI`, `pos * 2 * M_PI`). -/
theorem C3_theorem (rm : RegMap) (tp : Transport) (s : HWState)
    (hE : s.hw_efforts_.length = s.njoints)
    (hV : s.hw_velocities_.length = s.njoints)
    (hP : s.hw_positions_.length = s.njoints)
    (hok : ∀ a, (tp.tread a).1 = 0) :
    (ODriveHardwareInterface.read rm tp s).1 = .OK ∧
    (ODriveHardwareInterface.read rm tp s).2.2 = readAddrsFrom rm s.axis_ 0 s.njoints ∧
    ∀ i, i < s.njoints →
      (ODriveHardwareInterface.read rm tp s).2.1.hw_efforts_[i]? =
        some (readStoredEffort rm tp s i) ∧
      (ODriveHardwareInterface.read rm tp s).2.1.hw_velocities_[i]? =
        some (readStoredVelocity rm tp s i) ∧
      (ODriveHardwareInterface.read rm tp s).2.1.hw_positions_[i]? =
        some (readStoredPosition rm tp s i) := by
  have hjok : ∀ k, 0 ≤ k → k < 0 + s.njoints → jointReadOk rm tp s.axis_ k = true := by
    intro k _ _
    simp [jointReadOk, hok]
  have H := readGo_ok rm tp s.njoints 0 s hjok
  refine ⟨H.1, H.2.1, ?_⟩
  intro i hi
  have h3 := H.2.2 i (by omega) (by omega)
  exact ⟨h3.1 (by omega), h3.2.1 (by omega), h3.2.2 (by omega)⟩

/-- C3 witness: the two-joint state under the echoing transport. -/
theorem C3_witness :
    sW.hw_efforts_.length = sW.njoints ∧
    sW.hw_velocities_.length = sW.njoints ∧
    sW.hw_positions_.length = sW.njoints ∧
    ((ODriveHardwareInterface.read rmW tpW sW).1 = .OK ∧
      (ODriveHardwareInterface.read rmW tpW sW).2.2 = readAddrsFrom rmW sW.axis_ 0 sW.njoints ∧
      ∀ i, i < sW.njoints →
        (ODriveHardwareInterface.read rmW tpW sW).2.1.hw_efforts_[i]? =
          some (readStoredEffort rmW tpW sW i) ∧
        (ODriveHardwareInterface.read rmW tpW sW).2.1.hw_velocities_[i]? =
          some (readStoredVelocity rmW tpW sW i) ∧
        (ODriveHardwareInterface.read rmW tpW sW).2.1.hw_positions_[i]? =
          some (readStoredPosition rmW tpW sW i)) :=
  ⟨by decide, by decide, by decide,
    C3_theorem rmW tpW sW (by decide) (by decide) (by decide) (fun a => rfl)⟩

/-- C2: if joint `j`'s register reads are the first to fail (position `p`
of its three reads), `read()` returns `ERROR`, the reads issued are
exactly those of the joints before `j` plus joint `j`'s first `p+1` —
none for any joint after `j` — and the state buffers of every joint before
`j` hold this cycle's converted values while those of every joint after
`j` are unchanged. -/
theorem C2_theorem (rm : RegMap) (tp : Transport) (s : HWState) (j p : ℕ)
    (hE : s.hw_efforts_.length = s.njoints)
    (hV : s.hw_velocities_.length = s.njoints)
    (hP : s.hw_positions_.length = s.njoints)
    (hj : j < s.njoints)
    (hbef : ∀ k, k < j → jointReadOk rm tp s.axis_ k = true)
    (hfail : jointReadFailAt rm tp s.axis_ j p = true) :
    (ODriveHardwareInterface.read rm tp s).1 = .ERROR ∧
    (ODriveHardwareInterface.read rm tp s).2.2 =
      readAddrsFrom rm s.axis_ 0 j ++ (jointReadAddrs rm s.axis_ j).take (p+1) ∧
    (∀ k, k < j →
      (ODriveHardwareInterface.read rm tp s).2.1.hw_efforts_[k]? =
        some (readStoredEffort rm tp s k) ∧
      (ODriveHardwareInterface.read rm tp s).2.1.hw_velocities_[k]? =
        some (readStoredVelocity rm tp s k) ∧
      (ODriveHardwareInterface.read rm tp s).2.1.hw_positions_[k]? =
        some (readStoredPosition rm tp s k)) ∧
    (∀ k, j < k →
      (ODriveHardwareInterface.read rm tp s).2.1.hw_positions_[k]? = s.hw_positions_[k]? ∧
      (ODriveHardwareInterface.read rm tp s).2.1.hw_velocities_[k]? = s.hw_velocities_[k]? ∧
      (ODriveHardwareInterface.read rm tp s).2.1.hw_efforts_[k]? = s.hw_efforts_[k]?) := by
  have H := readGo_fail rm tp s.njoints 0 s j p (by omega) (by omega)
    (fun k _ h2 => hbef k h2) hfail
  refine ⟨H.1, by simpa using H.2.1, ?_, H.2.2.2⟩
  intro k hk
  have h3 := H.2.2.1 k (by omega) hk
  exact ⟨h3.1 (by omega), h3.2.1 (by omega), h3.2.2 (by omega)⟩

/-- C2 witness: three joints, the transport failing the second joint's
first register read; the first joint's buffers are updated, the third
joint's reads never occur and its buffers are unchanged. -/
theorem C2_witness :
    sW3.hw_efforts_.length = sW3.njoints ∧
    sW3.hw_velocities_.length = sW3.njoints ∧
    sW3.hw_positions_.length = sW3.njoints ∧
    1 < sW3.njoints ∧
    (∀ k, k < 1 → jointReadOk rmW tpReadFail110 sW3.axis_ k = true) ∧
    jointReadFailAt rmW tpReadFail110 sW3.axis_ 1 0 = true ∧
    ((ODriveHardwareInterface.read rmW tpReadFail110 sW3).1 = .ERROR ∧
      (ODriveHardwareInterface.read rmW tpReadFail110 sW3).2.2 =
        readAddrsFrom rmW sW3.axis_ 0 1 ++ (jointReadAddrs rmW sW3.axis_ 1).take 1 ∧
      (∀ k, k < 1 →
        (ODriveHardwareInterface.read rmW tpReadFail110 sW3).2.1.hw_efforts_[k]? =
          some (readStoredEffort rmW tpReadFail110 sW3 k) ∧
        (ODriveHardwareInterface.read rmW tpReadFail110 sW3).2.1.hw_velocities_[k]? =
          some (readStoredVelocity rmW tpReadFail110 sW3 k) ∧
        (ODriveHardwareInterface.read rmW tpReadFail110 sW3).2.1.hw_positions_[k]? =
          some (readStoredPosition rmW tpReadFail110 sW3 k)) ∧
      (∀ k, 1 < k →
        (ODriveHardwareInterface.read rmW tpReadFail110 sW3).2.1.hw_positions_[k]? =
          sW3.hw_positions_[k]? ∧
        (ODriveHardwareInterface.read rmW tpReadFail110 sW3).2.1.hw_velocities_[k]? =
          sW3.hw_velocities_[k]? ∧
        (ODriveHardwareInterface.read rmW tpReadFail110 sW3).2.1.hw_efforts_[k]? =
          sW3.hw_efforts_[k]?)) :=
  ⟨by decide, by decide, by decide, by decide, by decide, by decide,
    C2_theorem rmW tpReadFail110 sW3 1 0 (by decide) (by decide) (by decide)
      (by decide) (by decide) (by decide)⟩

/-- C5 counterexample: with one valid-interface joint whose `axis`
parameter is absent, `configure()` does not return an error status — the
`std::out_of_range` thrown by `parameters.at("axis")` propagates out of the
call instead. -/
theorem C5_counterexample :
    (ODriveHardwareInterface.configure tpW ⟨[jWnoAxis]⟩ initState).1 = .exn .out_of_range ∧
    (ODriveHardwareInterface.configure tpW ⟨[jWnoAxis]⟩ initState).1 ≠ .error := by
  exact ⟨by decide, by decide⟩

/-- C5 (amended): when some joint's `axis` or `KV` parameter is absent or
non-numeric (all earlier joints parsing fine), `configure()` fails by an
exception escaping the call (`out_of_range` from `map::at`,
`invalid_argument`/`out_of_range` from `stoi`), not by an error status;
when every joint's parameters parse, `configure()` succeeds and stores the
`stoi`-parsed integers in `axis_` and `KV_`. -/
theorem C5_theorem (tp : Transport) (info : HardwareInfo) :
    (∀ k, k < info.joints.length →
      (∀ m, m < k → interfacesOk (info.joints.getD m emptyJoint) = true ∧
        (parseJointParams (info.joints.getD m emptyJoint)).isSome = true) →
      interfacesOk (info.joints.getD k emptyJoint) = true →
      parseJointParams (info.joints.getD k emptyJoint) = none →
      (ODriveHardwareInterface.configure tp info initState).1.isExn = true) ∧
    ((∀ j ∈ info.joints, interfacesOk j = true ∧ (parseJointParams j).isSome = true) →
      tp.init_result = 0 →
      (ODriveHardwareInterface.configure tp info initState).1 = .ok ∧
      (ODriveHardwareInterface.configure tp info initState).2.axis_ = info.joints.map axisOf ∧
      (ODriveHardwareInterface.configure tp info initState).2.KV_ = info.joints.map kvOf) := by
  constructor
  · intro k hk hbef hik hpar
    obtain ⟨e, s', hloop⟩ :=
      configureLoop_exn_at info.joints k (resizedState info initState) hk hbef hik hpar
    simp [ODriveHardwareInterface.configure, hloop, ConfigOutcome.isExn]
  · intro hall hinit
    have hloop := configureLoop_all_pass info.joints (resizedState info initState) hall
    refine ⟨?_, ?_, ?_⟩ <;>
      · simp only [ODriveHardwareInterface.configure, hloop]
        try simp [hinit, resizedState, initState]

/-- C5 witness: a second joint lacking `axis` makes `configure()` exit by
exception; with both joints carrying numeric parameters, `configure()`
succeeds and `axis_`/`KV_` hold the parsed integers. -/
theorem C5_witness :
    (1 < (⟨[jW0, jWnoAxis]⟩ : HardwareInfo).joints.length ∧
      (∀ m, m < 1 →
        interfacesOk ((⟨[jW0, jWnoAxis]⟩ : HardwareInfo).joints.getD m emptyJoint) = true ∧
        (parseJointParams
          ((⟨[jW0, jWnoAxis]⟩ : HardwareInfo).joints.getD m emptyJoint)).isSome = true) ∧
      interfacesOk ((⟨[jW0, jWnoAxis]⟩ : HardwareInfo).joints.getD 1 emptyJoint) = true ∧
      parseJointParams ((⟨[jW0, jWnoAxis]⟩ : HardwareInfo).joints.getD 1 emptyJoint) = none ∧
      (ODriveHardwareInterface.configure tpW ⟨[jW0, jWnoAxis]⟩ initState).1.isExn = true) ∧
    ((∀ j ∈ infoW.joints, interfacesOk j = true ∧ (parseJointParams j).isSome = true) ∧
      tpW.init_result = 0 ∧
      (ODriveHardwareInterface.configure tpW infoW initState).1 = .ok ∧
      (ODriveHardwareInterface.configure tpW infoW initState).2.axis_ =
        infoW.joints.map axisOf ∧
      (ODriveHardwareInterface.configure tpW infoW initState).2.KV_ =
        infoW.joints.map kvOf) :=
  ⟨⟨by decide, by decide, by decide, by decide,
      (C5_theorem tpW ⟨[jW0, jWnoAxis]⟩).1 1 (by decide) (by decide) (by decide) (by decide)⟩,
    by decide, by decide,
    ((C5_theorem tpW infoW).2 (by decide) (by decide)).1,
    ((C5_theorem tpW infoW).2 (by decide) (by decide)).2.1,
    ((C5_theorem tpW infoW).2 (by decide) (by decide)).2.2⟩

/-- C8: a successful `configure()` on a fresh object with N joints leaves
all nine per-joint vectors at length N, the state buffers all-NaN, the
command buffers all-zero and every control level VELOCITY, and every
subsequent sequence of start/stop/read/write calls keeps all nine vectors
at length N. -/
theorem C8_theorem (tp : Transport) (info : HardwareInfo) (s' : HWState)
    (h : ODriveHardwareInterface.configure tp info initState = (.ok, s')) :
    BufLens s' info.joints.length ∧
    s'.njoints = info.joints.length ∧
    s'.hw_positions_ = List.replicate info.joints.length none ∧
    s'.hw_velocities_ = List.replicate info.joints.length none ∧
    s'.hw_efforts_ = List.replicate info.joints.length none ∧
    s'.hw_commands_positions_ = List.replicate info.joints.length 0 ∧
    s'.hw_commands_velocities_ = List.replicate info.joints.length 0 ∧
    s'.hw_commands_efforts_ = List.replicate info.joints.length 0 ∧
    s'.control_level_ = List.replicate info.joints.length .VELOCITY ∧
    ∀ cs : List OpCall, BufLens (applyOps cs s') info.joints.length := by
  unfold ODriveHardwareInterface.configure at h
  split at h
  · simp at h
  · simp at h
  next s1 heq =>
    split at h
    · simp at h
    · simp only [Prod.mk.injEq] at h
      obtain ⟨-, hs⟩ := h
      subst hs
      obtain ⟨q1, q2, q3, q4, q5, q6, q7, q8, q9, q10, q11, q12⟩ :=
        configureLoop_none_inv info.joints (resizedState info initState) s1 heq
      have e1 : s1.hw_positions_ = List.replicate info.joints.length none := by
        rw [q5]; simp [resizedState, initState, listResize]
      have e2 : s1.hw_velocities_ = List.replicate info.joints.length none := by
        rw [q6]; simp [resizedState, initState, listResize]
      have e3 : s1.hw_efforts_ = List.replicate info.joints.length none := by
        rw [q7]; simp [resizedState, initState, listResize]
      have e4 : s1.hw_commands_positions_ = List.replicate info.joints.length 0 := by
        rw [q2]; simp [resizedState, initState, listResize]
      have e5 : s1.hw_commands_velocities_ = List.replicate info.joints.length 0 := by
        rw [q3]; simp [resizedState, initState, listResize]
      have e6 : s1.hw_commands_efforts_ = List.replicate info.joints.length 0 := by
        rw [q4]; simp [resizedState, initState, listResize]
      have e7 : s1.control_level_ = List.replicate info.joints.length .VELOCITY := by
        rw [q8]; simp [resizedState, initState, listResize]
      have e8 : s1.njoints = info.joints.length := by
        rw [q1]; simp [resizedState]
      have e9 : s1.axis_.length = info.joints.length := by
        rw [q11]; simp [resizedState, initState]
      have e10 : s1.KV_.length = info.joints.length := by
        rw [q12]; simp [resizedState, initState]
      have hbl : BufLens { s1 with status_ := .CONFIGURED } info.joints.length := by
        refine ⟨?_, ?_, ?_, ?_, ?_, ?_, ?_, ?_, ?_⟩ <;>
          simp [e1, e2, e3, e4, e5, e6, e7, e9, e10]
      refine ⟨hbl, by simpa using e8, by simpa using e1, by simpa using e2, by simpa using e3,
        by simpa using e4, by simpa using e5, by simpa using e6, by simpa using e7, ?_⟩
      intro cs
      exact buflens_applyOps cs _ _ hbl

/-- C8 witness: the two-joint description configures successfully; the
resulting state satisfies all the shape facts, for every later call
sequence. -/
theorem C8_witness :
    ODriveHardwareInterface.configure tpW infoW initState =
      (.ok, (ODriveHardwareInterface.configure tpW infoW initState).2) ∧
    (BufLens (ODriveHardwareInterface.configure tpW infoW initState).2 infoW.joints.length ∧
      (ODriveHardwareInterface.configure tpW infoW initState).2.njoints = infoW.joints.length ∧
      (ODriveHardwareInterface.configure tpW infoW initState).2.hw_positions_ =
        List.replicate infoW.joints.length none ∧
      (ODriveHardwareInterface.configure tpW infoW initState).2.hw_velocities_ =
        List.replicate infoW.joints.length none ∧
      (ODriveHardwareInterface.configure tpW infoW initState).2.hw_efforts_ =
        List.replicate infoW.joints.length none ∧
      (ODriveHardwareInterface.configure tpW infoW initState).2.hw_commands_positions_ =
        List.replicate infoW.joints.length 0 ∧
      (ODriveHardwareInterface.configure tpW infoW initState).2.hw_commands_velocities_ =
        List.replicate infoW.joints.length 0 ∧
      (ODriveHardwareInterface.configure tpW infoW initState).2.hw_commands_efforts_ =
        List.replicate infoW.joints.length 0 ∧
      (ODriveHardwareInterface.configure tpW infoW initState).2.control_level_ =
        List.replicate infoW.joints.length .VELOCITY ∧
      ∀ cs : List OpCall,
        BufLens (applyOps cs (ODriveHardwareInterface.configure tpW infoW initState).2)
          infoW.joints.length) := by
  have h1 : (ODriveHardwareInterface.configure tpW infoW initState).1 = .ok := by decide
  have hp : ODriveHardwareInterface.configure tpW infoW initState =
      (.ok, (ODriveHardwareInterface.configure tpW infoW initState).2) := by
    rw [← h1]
  exact ⟨hp, C8_theorem tpW infoW _ hp⟩

/-- C10: `configure()` resizes all six double buffers and `control_level_`
before validating any joint, so when it returns `ERROR` because joint `k`
fails the interface checks (count ≠ 3 or unrecognized first kind), the
returned state already has those buffers resized and initialized, and
`axis_`/`KV_` hold the parsed parameters of exactly the joints before `k`. -/
theorem C10_theorem (tp : Transport) (info : HardwareInfo) (k : ℕ)
    (hk : k < info.joints.length)
    (hbef : ∀ m, m < k → interfacesOk (info.joints.getD m emptyJoint) = true ∧
      (parseJointParams (info.joints.getD m emptyJoint)).isSome = true)
    (hbad : interfacesOk (info.joints.getD k emptyJoint) = false) :
    (ODriveHardwareInterface.configure tp info initState).1 = .error ∧
    (ODriveHardwareInterface.configure tp info initState).2.hw_positions_ =
      List.replicate info.joints.length none ∧
    (ODriveHardwareInterface.configure tp info initState).2.hw_velocities_ =
      List.replicate info.joints.length none ∧
    (ODriveHardwareInterface.configure tp info initState).2.hw_efforts_ =
      List.replicate info.joints.length none ∧
    (ODriveHardwareInterface.configure tp info initState).2.hw_commands_positions_ =
      List.replicate info.joints.length 0 ∧
    (ODriveHardwareInterface.configure tp info initState).2.hw_commands_velocities_ =
      List.replicate info.joints.length 0 ∧
    (ODriveHardwareInterface.configure tp info initState).2.hw_commands_efforts_ =
      List.replicate info.joints.length 0 ∧
    (ODriveHardwareInterface.configure tp info initState).2.control_level_ =
      List.replicate info.joints.length .VELOCITY ∧
    (ODriveHardwareInterface.configure tp info initState).2.axis_ =
      (info.joints.take k).map axisOf ∧
    (ODriveHardwareInterface.configure tp info initState).2.KV_ =
      (info.joints.take k).map kvOf := by
  have hloop := configureLoop_err_at info.joints k (resizedState info initState) hk hbef hbad
  refine ⟨?_, ?_, ?_, ?_, ?_, ?_, ?_, ?_, ?_, ?_⟩ <;>
    · simp only [ODriveHardwareInterface.configure, hloop]
      try simp [resizedState, initState, listResize]

/-- C10 witness: a valid first joint and a second joint with only two
command interfaces: `configure()` returns `ERROR` with the buffers already
resized for both joints and `axis_`/`KV_` holding only the first joint's
parsed parameters. -/
theorem C10_witness :
    1 < (⟨[jW0, jWtwoIfaces]⟩ : HardwareInfo).joints.length ∧
    (∀ m, m < 1 →
      interfacesOk ((⟨[jW0, jWtwoIfaces]⟩ : HardwareInfo).joints.getD m emptyJoint) = true ∧
      (parseJointParams
        ((⟨[jW0, jWtwoIfaces]⟩ : HardwareInfo).joints.getD m emptyJoint)).isSome = true) ∧
    interfacesOk ((⟨[jW0, jWtwoIfaces]⟩ : HardwareInfo).joints.getD 1 emptyJoint) = false ∧
    ((ODriveHardwareInterface.configure tpW ⟨[jW0, jWtwoIfaces]⟩ initState).1 = .error ∧
      (ODriveHardwareInterface.configure tpW ⟨[jW0, jWtwoIfaces]⟩ initState).2.axis_ =
        (((⟨[jW0, jWtwoIfaces]⟩ : HardwareInfo).joints.take 1).map axisOf) ∧
      (ODriveHardwareInterface.configure tpW ⟨[jW0, jWtwoIfaces]⟩ initState).2.KV_ =
        (((⟨[jW0, jWtwoIfaces]⟩ : HardwareInfo).joints.take 1).map kvOf) ∧
      (ODriveHardwareInterface.configure tpW ⟨[jW0, jWtwoIfaces]⟩ initState).2.control_level_ =
        List.replicate 2 .VELOCITY) :=
  ⟨by decide, by decide, by decide,
    (C10_theorem tpW ⟨[jW0, jWtwoIfaces]⟩ 1 (by decide) (by decide) (by decide)).1,
    (C10_theorem tpW ⟨[jW0, jWtwoIfaces]⟩ 1 (by decide) (by decide) (by decide)).2.2.2.2.2.2.2.2.1,
    (C10_theorem tpW ⟨[jW0, jWtwoIfaces]⟩ 1 (by decide) (by decide) (by decide)).2.2.2.2.2.2.2.2.2,
    (C10_theorem tpW ⟨[jW0, jWtwoIfaces]⟩ 1 (by decide) (by decide) (by decide)).2.2.2.2.2.2.2.1⟩
